import Mathlib

/-!
Verification development for the MacDBG debugger bridge server
(src/Resources/lldb_server.py).

The server mediates between a byte-stream transport and the external
LLDB debug engine.  The shallow embedding below models:

* JSON documents as the inductive type `J`;
* the external engine (LLDB) as oracle data carried inside
  `EngineThread` / `EngineProcess` / `Target` / `Debugger`: every value an
  engine call can return is a field, while engine-internal effects
  (launching, continuing, stepping the target program) are outside the
  model's state, exactly matching the spec's "Debug Engine Capability"
  boundary;
* the `Handler` session object with its mutable attributes;
* each command handler of the effective `Handler` class.  Note that the
  Python class defines `prepareExecutable`, `createProcess` and
  `attachToProcess` twice; Python silently lets the later definitions
  (lines 713-852) shadow the earlier guarded ones (lines 280-343), so the
  embedding follows the later, effective, definitions;
* the dispatch loop `Handler.run`, the binary framing of
  `transportRead`, and a small-step model of concurrent writers under the
  transport lock of `transportWrite`.

Python exception texts are reproduced with `\x27` for the quote
character; where an exception is raised inside an engine call its text is
abbreviated, since only the `status:error` / "bad request" classification
is ever observable to the client.
-/

namespace MacDBG

/-! ### JSON documents -/

/-- A JSON document, as produced by `json.loads` / consumed by
`json.dumps`.  Objects keep their fields as an association list. -/
inductive J where
  | null
  | bool (b : Bool)
  | num (n : Int)
  | str (s : String)
  | arr (elems : List J)
  | obj (fields : List (String × J))

/-- Association-list lookup, the model of Python `dict[key]`. -/
def J.lookup : List (String × J) → String → Option J
  | [], _ => none
  | (k, v) :: r, key => if k = key then some v else J.lookup r key

/-- Field access on a document; `none` for a missing key or a non-object. -/
def J.getField : J → String → Option J
  | J.obj fs, k => J.lookup fs k
  | _, _ => none

/-- Whether a document is an object carrying the given field. -/
def J.hasField (j : J) (k : String) : Bool := (j.getField k).isSome

/-- The model of `result[key] = value` on a dict: replace or add the
binding.  (The binding is placed first; only lookups are observable.) -/
def J.setField : J → String → J → J
  | J.obj fs, k, v => J.obj ((k, v) :: fs.filter (fun p => p.1 ≠ k))
  | j, _, _ => j

/-- Python truthiness of a JSON value (`if args:` etc.). -/
def J.pyTruthy : J → Bool
  | J.null => false
  | J.bool b => b
  | J.num n => n ≠ 0
  | J.str s => s ≠ ""
  | J.arr l => !l.isEmpty
  | J.obj fs => !fs.isEmpty

/-- Python `str(KeyError(k))`, which prints the key in quotes. -/
def sq (s : String) : String := "\x27" ++ s ++ "\x27"

/-! ### The abstract debug-engine capability

LLDB process-state codes, as used by `stateToString`:
0 invalid, 1 unloaded, 2 connected, 3 attaching, 4 launching,
5 stopped, 6 running, 7 stepping, 8 crashed, 9 detached, 10 exited,
11 suspended. -/

/-- `stateToString` (lldb_server.py line 63). -/
def stateToString (state : Nat) : String :=
  let state_strings := ["eStateInvalid", "eStateUnloaded", "eStateConnected",
    "eStateAttaching", "eStateLaunching", "eStateStopped", "eStateRunning",
    "eStateStepping", "eStateCrashed", "eStateDetached", "eStateExited",
    "eStateSuspended"]
  match state_strings.get? state with
  | some s => s
  | none => "invalid state (" ++ toString state ++ ")"

/-- `Handler.stopReasonToString` (line 481). -/
def stopReasonToString (reason : Nat) : String :=
  if reason = 0 then "Invalid"
  else if reason = 1 then "None"
  else if reason = 2 then "Trace"
  else if reason = 3 then "Breakpoint"
  else if reason = 4 then "Watchpoint"
  else if reason = 5 then "Signal"
  else if reason = 6 then "Exception"
  else if reason = 7 then "Exec"
  else if reason = 8 then "Plan Complete"
  else if reason = 9 then "Thread Exiting"
  else "Unknown Reason"

/-- An engine-side thread (`SBThread`) together with the data the server
reads from it.  `frameDescs` is the `getFrameDesc` output for each frame
of the thread, engine-provided. -/
structure EngineThread where
  valid : Bool
  tid : Nat
  stopReason : Nat
  frameValid : Bool
  framePC : Nat
  frameDescs : List J

/-- An engine-side process (`SBProcess`).  `pollStates` is the state the
engine reports at the i-th poll of a bounded polling loop (the engine
runs asynchronously, so the state observed over time is an oracle).
`readOK`/`writeOK` model `SBError.Success` of memory accesses, `mem` the
byte content of readable memory. -/
structure EngineProcess where
  valid : Bool
  state : Nat
  pollStates : Nat → Nat
  exitStatus : Int
  mem : Int → Nat
  readOK : Int → Int → Bool
  writeOK : Int → Bool
  writeErrMsg : String
  selectedThread : Option EngineThread
  threads : List EngineThread
  gprs : List (String × J)
  fprs : List (String × J)
  esrs : List (String × J)
  findReg : String → Bool
  setRegOK : String → String → Bool
  setRegErr : String

/-- An engine-side module handle (`SBModule`); `desc` is the engine data
`moduleDesc` serializes. -/
structure ModuleH where
  valid : Bool
  desc : J

/-- An engine-side target (`SBTarget`).  The `…Result` fields are the
outcomes of the engine calls the server may issue on this target. -/
structure Target where
  valid : Bool
  process : Option EngineProcess
  numModules : Nat
  launchResult : Except String EngineProcess
  attachResult : Nat → Except String EngineProcess
  connectResult : Option EngineProcess
  findModuleResult : String → Option ModuleH
  bpId : Int → Int
  bpLocations : Int → List Nat
  deleteAllOK : Bool
  disasmLines : Int → Int → List J
  mainDisasmLines : Int → Option (List J)

/-- The `SBDebugger` capability surface the server session uses. -/
structure Debugger where
  createTarget : String → Target
  selectedTarget : Target
  handleCommandOut : String → J × J × Bool
  completions : String → Int → List String

/-- The server's event thread handle: freshly constructed (never started),
started, or set to Python `None` by `deleteProcess`. -/
inductive EventThreadH where
  | fresh
  | started
  | noThread

/-- `threading.Thread.start`: a fresh thread starts; a started one raises
`RuntimeError`; `None` has no `start` attribute. -/
def startEventThread : EventThreadH → Except String EventThreadH
  | .fresh => .ok .started
  | .started => .error "threads can only be started once"
  | .noThread => .error ("\x27NoneType\x27 object has no attribute \x27start\x27")

/-- The session state of `Handler.__init__` (line 72): the fields the
command handlers read and write. -/
structure Handler where
  target : Option Target
  workingDirectory : J
  launch_args : J
  executable_path : J
  is_64bit : J
  arguments : J
  executable : J
  is64Bits : J
  eventThread : EventThreadH
  debugger : Debugger

/-- The outcome of one command handler: the new session state, the
notifications it pushed through `sendJSON` while handling, and either a
result document or an uncaught Python exception (whose text reaches the
dispatch loop). -/
abbrev HRes := Handler × List J × Except String J

/-- `Handler.buildError` (line 261). -/
def buildError (msg : String) : J :=
  J.obj [("status", J.str "error"), ("message", J.str msg)]

/-- `Handler.buildOK` (line 264), without message. -/
def buildOK : J := J.obj [("status", J.str "ok")]

/-- `Handler.buildOK` with a message. -/
def buildOKMsg (msg : String) : J :=
  J.obj [("status", J.str "ok"), ("message", J.str msg)]

/-! ### Command handlers

Each `Handler.x` below embeds the method `Handler.x` of lldb_server.py.
Throughout, `self.target == None` is `h.target = none`, and an invalid
(but non-`None`) `SBTarget` is `some t` with `t.valid = false`. -/

/-- `Handler.prepareExecutable` — the effective definition at line 713
(the earlier one at line 280 is shadowed).  Creates the target at prepare
time and stores the launch parameters. -/
def Handler.prepareExecutable (h : Handler) (path : String) (is64Bits cwd args : J) :
    HRes :=
  let nt := h.debugger.createTarget path
  let h1 := { h with target := some nt }
  if !nt.valid then
    (h1, [], .ok (buildError "cannot create target from binary file"))
  else
    ({ h1 with
        launch_args := if args.pyTruthy then args else J.arr [],
        executable_path := J.str path,
        is_64bit := is64Bits,
        workingDirectory := cwd }, [], .ok buildOK)

/-- The `stopped` notification built at lines 818-826 of `createProcess`. -/
def launchedStoppedNote (pc tid : Nat) : J :=
  J.obj [("type", J.str "stopped"),
         ("payload", J.obj [("reason", J.str "launched"),
                            ("pc", J.num pc),
                            ("threadId", J.num tid)])]

/-- `Handler.createProcess` — the effective definition at line 735 (the
earlier guarded one at line 287, which answered "process already exists",
is shadowed).  Launches the target prepared by `prepareExecutable`,
starts the event thread (which raises if it was already started, or was
set to `None` by `deleteProcess`), and emits a `stopped` notification.
The entry-point breakpoint / `Continue` / `Stop` calls act on the engine
only and are not session-state observable; the post-launch process state
is read back through the engine oracle fields. -/
def Handler.createProcess (h : Handler) : HRes :=
  match h.target with
  | none => (h, [], .ok (buildError "no executable prepared"))
  | some t =>
    if !t.valid then (h, [], .ok (buildError "no executable prepared"))
    else
      match t.launchResult with
      | .error msg =>
        (h, [], .ok (buildError ("failed to launch process: " ++ msg)))
      | .ok proc =>
        let h1 := { h with target := some { t with process := some proc } }
        match startEventThread h1.eventThread with
        | .error e =>
          -- the exception from `self.eventThread.start()` is caught by the
          -- handler's own `except` clause
          (h1, [], .ok (buildError ("failed to create process: " ++ e)))
        | .ok et =>
          let h2 := { h1 with eventThread := et }
          -- actual_pc gathering (lines 799-806): `GetSelectedThread()`
          -- returning `None` raises inside the `try`, caught at line 829
          if proc.valid && proc.state = 5 then
            match proc.selectedThread with
            | none =>
              (h2, [], .ok (buildError ("failed to create process: "
                ++ "\x27NoneType\x27 object has no attribute \x27IsValid\x27")))
            | some th =>
              let actual_pc := if th.valid && th.frameValid then th.framePC else 0
              let tid := if th.valid then th.tid else 0
              (h2, [launchedStoppedNote actual_pc tid], .ok buildOK)
          else
            let tid := match proc.selectedThread with
              | some th => if th.valid then th.tid else 0
              | none => 0
            (h2, [launchedStoppedNote 0 tid], .ok buildOK)

/-- `Handler.attachToProcess` — the effective definition at line 832 (the
earlier guarded one at line 309 is shadowed).  Note that it overwrites
`self.target` unconditionally, never consults the existing target, and
does not start the event thread. -/
def Handler.attachToProcess (h : Handler) (pid : Nat) (executable : String)
    (_is64Bits : J) : HRes :=
  let nt := h.debugger.createTarget executable
  let h1 := { h with target := some nt }
  if !nt.valid then (h1, [], .ok (buildError "cannot create target"))
  else
    match nt.attachResult pid with
    | .error msg =>
      (h1, [], .ok (buildError ("failed to attach to process: " ++ msg)))
    | .ok proc =>
      ({ h1 with target := some { nt with process := some proc } }, [], .ok buildOK)

/-- `Handler.moduleCount` (line 345). -/
def Handler.moduleCount (h : Handler) : HRes :=
  match h.target with
  | none => (h, [], .ok (buildError "no process"))
  | some t =>
    match t.process with
    | none => (h, [], .ok (buildError "no process"))
    | some _ =>
      (h, [], .ok (J.obj [("status", J.str "ok"),
                          ("count", J.num t.numModules)]))

/-- `Handler.moduleAtIndex` (line 375).  The range check at line 378
compares the integer index against the dict returned by
`self.moduleCount()`: for a negative index the left disjunct
short-circuits to "index out of range", but for any non-negative index
the comparison `index >= dict` raises a `TypeError` that propagates to
the dispatch loop. -/
def Handler.moduleAtIndex (h : Handler) (index : Int) : HRes :=
  match h.target with
  | none => (h, [], .ok (buildError "no process"))
  | some t =>
    match t.process with
    | none => (h, [], .ok (buildError "no process"))
    | some _ =>
      if index < 0 then (h, [], .ok (buildError "index out of range"))
      else
        (h, [], .error ("\x27>=\x27 not supported between instances of "
          ++ "\x27int\x27 and \x27dict\x27"))

/-- `Handler.moduleForFile` (line 387). -/
def Handler.moduleForFile (h : Handler) (filename : String) : HRes :=
  match h.target with
  | none => (h, [], .ok (buildError "no process"))
  | some t =>
    match t.process with
    | none => (h, [], .ok (buildError "no process"))
    | some _ =>
      match t.findModuleResult filename with
      | none => (h, [], .ok (buildError "can\x27t find module"))
      | some m =>
        if !m.valid then (h, [], .ok (buildError "invalid module"))
        else
          (h, [], .ok (J.obj [("status", J.str "ok"), ("module", m.desc)]))

/-- The body of `Handler.connectRemote` after its already-has-a-process
guard: the kdp-remote branch drives the engine through `HandleCommand`
and takes the debugger's selected target; the generic branch creates a
target and calls `ConnectRemote` on it.  In both branches the event
thread is started outside any `try`, so a re-start raises out of the
handler. -/
def connectRemoteBody (h : Handler) (is64Bits : J) (plugin filename : String) :
    HRes :=
  let h1 := { h with is64Bits := is64Bits, executable := J.str filename }
  let (nt, proc) :=
    if plugin = "kdp-remote" then
      (h1.debugger.selectedTarget, h1.debugger.selectedTarget.process)
    else
      let ct := h1.debugger.createTarget filename
      (ct, ct.connectResult)
  let h2 := { h1 with target := some nt }
  match proc with
  | none => (h2, [], .ok (buildError "cannot connect to remote, invalid process"))
  | some p =>
    if !p.valid then
      (h2, [], .ok (buildError "cannot connect to remote, invalid process"))
    else
      match startEventThread h2.eventThread with
      | .error e => (h2, [], .error e)
      | .ok et => ({ h2 with eventThread := et }, [], .ok buildOK)

/-- `Handler.connectRemote` (line 400). -/
def Handler.connectRemote (h : Handler) (is64Bits : J) (_url : String)
    (plugin : String) (_platform : J) (filename : String) : HRes :=
  match h.target with
  | some t =>
    if t.process.isSome then (h, [], .ok (buildError "already has a process"))
    else connectRemoteBody h is64Bits plugin filename
  | none => connectRemoteBody h is64Bits plugin filename

/-- `Handler.detach` (line 436): detaches the engine process; the session
keeps its target handle. -/
def Handler.detach (h : Handler) : HRes :=
  match h.target with
  | none => (h, [], .ok (buildError "no process"))
  | some t =>
    match t.process with
    | none => (h, [], .ok (buildError "no process"))
    | some _ => (h, [], .ok buildOK)

/-- `Handler.deleteProcess` (line 442): stops and joins the event thread,
sets it to `None`, destroys the process and clears the target.  Joining a
thread that was never started raises `RuntimeError`. -/
def Handler.deleteProcess (h : Handler) : HRes :=
  match h.target with
  | none => (h, [], .ok (buildError "no process"))
  | some t =>
    match t.process with
    | none => (h, [], .ok (buildError "no process"))
    | some _ =>
      match h.eventThread with
      | .fresh => (h, [], .error "cannot join thread before it is started")
      | .started =>
        ({ h with eventThread := .noThread, target := none }, [], .ok buildOK)
      | .noThread =>
        ({ h with eventThread := .noThread, target := none }, [], .ok buildOK)

/-- `Handler.hasProcess` (line 453). -/
def Handler.hasProcess (h : Handler) : HRes :=
  match h.target with
  | some t =>
    match t.process with
    | some _ => (h, [], .ok buildOK)
    | none => (h, [], .ok (buildError "no process"))
  | none => (h, [], .ok (buildError "no process"))

/-- `Handler.getProcessState` (line 459). -/
def Handler.getProcessState (h : Handler) : HRes :=
  match h.target with
  | some t =>
    match t.process with
    | some p =>
      (h, [], .ok (J.obj [("status", J.str "ok"),
                          ("state", J.num p.state),
                          ("state-string", J.str (stateToString p.state))]))
    | none => (h, [], .ok (buildError "no process"))
  | none => (h, [], .ok (buildError "no process"))

/-- `Handler.continueExecution` (line 473): `Continue` is fire-and-forget
on the engine. -/
def Handler.continueExecution (h : Handler) : HRes :=
  match h.target with
  | some t =>
    match t.process with
    | some _ => (h, [], .ok buildOK)
    | none => (h, [], .ok (buildError "no process"))
  | none => (h, [], .ok (buildError "no process"))

/-- `Handler.breakExecution` (line 512): `SendAsyncInterrupt` on the
engine. -/
def Handler.breakExecution (h : Handler) : HRes :=
  match h.target with
  | some t =>
    match t.process with
    | some _ => (h, [], .ok buildOK)
    | none => (h, [], .ok (buildError "no process"))
  | none => (h, [], .ok (buildError "no process"))

/-- `Handler.stopExecution` (line 520): `Kill` on the engine. -/
def Handler.stopExecution (h : Handler) : HRes :=
  match h.target with
  | some t =>
    match t.process with
    | some _ => (h, [], .ok buildOK)
    | none => (h, [], .ok (buildError "no process"))
  | none => (h, [], .ok (buildError "no process"))

/-- The poll loop of `forceStopAndReport` (line 539), counting the
`GetState` polls it performs: at most `remaining` more polls, breaking as
soon as one observes `eStateStopped`. -/
def pollLoop (p : EngineProcess) : Nat → Nat → Nat
  | 0, used => used
  | remaining + 1, used =>
    if p.pollStates used = 5 then used + 1 else pollLoop p remaining (used + 1)

/-- Number of `GetState` polls `forceStopAndReport` performs: it runs its
loop of 20 iterations, stopping at the first poll that observes
`eStateStopped`. -/
def fsrPolls (p : EngineProcess) : Nat := pollLoop p 20 0

/-- The `stopped` notification of `forceStopAndReport` / the event
thread. -/
def stoppedNote (reason : String) (tid pc : Nat) : J :=
  J.obj [("type", J.str "stopped"),
         ("payload", J.obj [("reason", J.str reason),
                            ("threadId", J.num tid),
                            ("pc", J.num pc)])]

/-- `Handler.forceStopAndReport` (line 528): async interrupt, bounded
poll (at most 20 polls of 50ms) for `eStateStopped`, then always emit a
`stopped` notification with the last-known thread id, stop reason and
program counter (0 defaults when unavailable), regardless of whether the
stop was observed. -/
def Handler.forceStopAndReport (h : Handler) : HRes :=
  match h.target with
  | none => (h, [], .ok (buildError "no process"))
  | some t =>
    match t.process with
    | none => (h, [], .ok (buildError "no process"))
    | some p =>
      -- SendAsyncInterrupt, then the poll loop; the loop's exit changes
      -- no session state, only the time at which the engine is re-read
      let (tid, reason, pc) :=
        match p.selectedThread with
        | some th =>
          if th.valid then
            (th.tid, stopReasonToString th.stopReason,
             if th.frameValid then th.framePC else 0)
          else (0, "Stopped", 0)
        | none => (0, "Stopped", 0)
      (h, [stoppedNote reason tid pc], .ok buildOK)

/-- `Handler.getThreadIDList` (line 494). -/
def Handler.getThreadIDList (h : Handler) : HRes :=
  match h.target with
  | none => (h, [], .ok (buildError "no process"))
  | some t =>
    match t.process with
    | none => (h, [], .ok (buildError "no process"))
    | some p =>
      let lst := p.threads.map (fun th =>
        J.obj [("thread-id", J.num th.tid),
               ("state", J.str (stopReasonToString th.stopReason))])
      (h, [], .ok (J.obj [("status", J.str "ok"), ("threads", J.arr lst)]))

/-- `Handler.selectThreadID` (line 502): mutates the engine's selected
thread. -/
def Handler.selectThreadID (h : Handler) (tid : Nat) : HRes :=
  match h.target with
  | none => (h, [], .ok (buildError "no process"))
  | some t =>
    match t.process with
    | none => (h, [], .ok (buildError "no process"))
    | some p =>
      match p.threads.find? (fun th => th.tid = tid) with
      | none => (h, [], .ok (buildError ("no thread " ++ toString tid)))
      | some th =>
        let p1 := { p with selectedThread := some th }
        ({ h with target := some { t with process := some p1 } }, [], .ok buildOK)

/-- `Handler.getRegisters` (line 568): no `None` check on the selected
thread, so a missing selected thread raises out of the handler.  The
register enumeration and value formatting (`get_GPRs`,
`build_reg_value_string`, …) are engine data, carried by the oracle
fields `gprs`/`fprs`/`esrs`.  The reply is the modern typed envelope,
with no `status` field. -/
def Handler.getRegisters (h : Handler) : HRes :=
  match h.target with
  | some t =>
    match t.process with
    | some p =>
      match p.selectedThread with
      | none =>
        (h, [], .error ("\x27NoneType\x27 object has no attribute "
          ++ "\x27GetSelectedFrame\x27"))
      | some _ =>
        (h, [], .ok (J.obj [("type", J.str "registers"),
          ("payload", J.obj [("registers",
            J.obj (p.gprs ++ p.fprs ++ p.esrs))])]))
    | none => (h, [], .ok (buildError "no process"))
  | none => (h, [], .ok (buildError "no process"))

/-- `Handler.setBreakpointAtVirtualAddress` (line 599): guarded by the
target only;  returns ok with the breakpoint id and one field per
breakpoint location. -/
def Handler.setBreakpointAtVirtualAddress (h : Handler) (addr : Int) : HRes :=
  match h.target with
  | none => (h, [], .ok (buildError "no target"))
  | some t =>
    let locFields := (t.bpLocations addr).enum.map (fun bl =>
      ("bl" ++ toString bl.1, J.str ("load addr: " ++ toString bl.2)))
    (h, [], .ok (J.obj (("status", J.str "ok")
      :: ("bkpt_id", J.num (t.bpId addr)) :: locFields)))

/-- `Handler.removeBreakpoint` (line 614). -/
def Handler.removeBreakpoint (h : Handler) (_bkpt_id : Int) : HRes :=
  match h.target with
  | none => (h, [], .ok (buildError "no target"))
  | some _ => (h, [], .ok buildOK)

/-- `Handler.removeAllBreakpoints` (line 621). -/
def Handler.removeAllBreakpoints (h : Handler) : HRes :=
  match h.target with
  | none => (h, [], .ok (buildError "no target"))
  | some t =>
    if t.deleteAllOK then (h, [], .ok buildOK)
    else (h, [], .ok (buildError "cannot remove all breakpoints"))

/-- `Handler.stepInstruction` (line 631): issue
`thread.StepInstruction(False)` on the engine and reply ok immediately —
no polling, no notification. -/
def Handler.stepInstruction (h : Handler) : HRes :=
  match h.target with
  | none => (h, [], .ok (buildError "no process"))
  | some t =>
    match t.process with
    | none => (h, [], .ok (buildError "no process"))
    | some p =>
      match p.selectedThread with
      | none => (h, [], .ok (buildError "no thread selected"))
      | some _ => (h, [], .ok buildOK)

/-- `Handler.stepOver` (line 640): same shape as `stepInstruction`. -/
def Handler.stepOver (h : Handler) : HRes :=
  match h.target with
  | none => (h, [], .ok (buildError "no process"))
  | some t =>
    match t.process with
    | none => (h, [], .ok (buildError "no process"))
    | some p =>
      match p.selectedThread with
      | none => (h, [], .ok (buildError "no thread selected"))
      | some _ => (h, [], .ok buildOK)

/-- `Handler.stepOut` (line 649): same shape as `stepInstruction`. -/
def Handler.stepOut (h : Handler) : HRes :=
  match h.target with
  | none => (h, [], .ok (buildError "no process"))
  | some t =>
    match t.process with
    | none => (h, [], .ok (buildError "no process"))
    | some p =>
      match p.selectedThread with
      | none => (h, [], .ok (buildError "no thread selected"))
      | some _ => (h, [], .ok buildOK)

/-- `Handler.readMemory` (line 658).  The second parameter is named
`len` in the source, shadowing the builtin: after a successful
`ReadMemory` the loop header `for i in range(0, len(bytes_tuple), 16)` at
line 670 calls the integer parameter, raising
`TypeError: 'int' object is not callable`, which propagates to the
dispatch loop.  The hex/ascii line construction below it is unreachable. -/
def Handler.readMemory (h : Handler) (addr length : Int) : HRes :=
  match h.target with
  | none => (h, [], .ok (buildError "no process"))
  | some t =>
    match t.process with
    | none => (h, [], .ok (buildError "no process"))
    | some p =>
      if p.readOK addr length then
        (h, [], .error "\x27int\x27 object is not callable")
      else
        (h, [], .ok (buildError "unable to read memory"))

/-- `Handler.writeByte` (line 854).  Both the no-process case and the
engine-failure case reply with the typed `writeByte` envelope (no
`status` field); a successful write stores the byte in process memory.
`struct.pack('B', value)` raises for values outside a byte. -/
def Handler.writeByte (h : Handler) (addr value : Int) : HRes :=
  let fail (err : String) : J :=
    J.obj [("type", J.str "writeByte"),
           ("payload", J.obj [("success", J.bool false),
                              ("error", J.str err),
                              ("address", J.num addr),
                              ("value", J.num value)])]
  match h.target with
  | none => (h, [], .ok (fail "no process"))
  | some t =>
    match t.process with
    | none => (h, [], .ok (fail "no process"))
    | some p =>
      if value < 0 || 256 ≤ value then
        (h, [], .error "ubyte format requires 0 <= number <= 255")
      else if p.writeOK addr then
        ({ h with target := some { t with process := some { p with
            mem := fun a => if a = addr then value.toNat else p.mem a } } },
         [], .ok (J.obj [("type", J.str "writeByte"),
           ("payload", J.obj [("success", J.bool true),
                              ("error", J.null),
                              ("address", J.num addr),
                              ("value", J.num value)])]))
      else
        (h, [], .ok (fail ("unable to write process memory: " ++ p.writeErrMsg
          ++ "(" ++ toString p.state ++ ")")))

/-- `Handler.disassembly` (line 677): typed envelope built from the
engine's `ReadInstructions` data (abstracted by `disasmLines`). -/
def Handler.disassembly (h : Handler) (address count : Int) : HRes :=
  match h.target with
  | none => (h, [], .ok (buildError "no target"))
  | some t =>
    if !t.valid then (h, [], .ok (buildError "no target"))
    else
      match t.process with
      | none => (h, [], .ok (buildError "no process"))
      | some p =>
        if !p.valid then (h, [], .ok (buildError "no process"))
        else
          (h, [], .ok (J.obj [("type", J.str "disassembly"),
            ("payload", J.obj [("lines", J.arr (t.disasmLines address count))])]))

/-- `Handler.getMainExecutableDisassembly` (line 877): the main-module
and text-section search heuristics are engine-data driven; their outcome
is abstracted by `mainDisasmLines` (`none` when no module / text section
/ PC could be found, in which case an error status is returned). -/
def Handler.getMainExecutableDisassembly (h : Handler) (count : Int) : HRes :=
  match h.target with
  | none => (h, [], .ok (buildError "no target"))
  | some t =>
    if !t.valid then (h, [], .ok (buildError "no target"))
    else
      match t.process with
      | none => (h, [], .ok (buildError "no process"))
      | some p =>
        if !p.valid then (h, [], .ok (buildError "no process"))
        else
          match t.mainDisasmLines count with
          | some lines =>
            (h, [], .ok (J.obj [("type", J.str "disassembly"),
              ("payload", J.obj [("lines", J.arr lines)])]))
          | none => (h, [], .ok (buildError "no main executable module found"))

/-! ### String-reference search helpers -/

/-- Substring test over character lists (Python `pattern in operands`). -/
def listContainsSub (hay sub : List Char) : Bool :=
  hay.tails.any (fun t => sub.isPrefixOf t)

/-- Python `pattern in s` for strings. -/
def strContains (s pat : String) : Bool := listContainsSub s.toList pat.toList

/-- Lowercase hex rendering of a natural (Python `f"{n:x}"`). -/
def hexLower (n : Nat) : String := String.mk (Nat.toDigits 16 n)

/-- Uppercase hex rendering (Python `f"{n:X}"`). -/
def hexUpper (n : Nat) : String := String.mk ((Nat.toDigits 16 n).map Char.toUpper)

/-- `Handler.isValidStringReference` (line 1062): whether the operand
string contains the target address in any of six textual forms.  The
secondary filter `isLikelyMemoryReference` (line 1088) ends in
`return True`, so it accepts everything and imposes no extra condition. -/
def isValidStringReference (operands : String) (targetAddress : Int) : Bool :=
  if operands = "" then false
  else
    let lo := hexLower targetAddress.toNat
    let hi := hexUpper targetAddress.toNat
    let patterns := ["0x" ++ lo, "0x" ++ hi, "#" ++ lo, "#" ++ hi, lo, hi]
    patterns.any (fun pat => strContains operands pat)

/-- String field of an engine disassembly line (empty for other shapes,
matching `line.get('operands', '')` on the lines the server itself
builds). -/
def lineStr (line : J) (k : String) : String :=
  match line.getField k with
  | some (J.str s) => s
  | _ => ""

/-- `line.get('address', 0)` on an engine disassembly line. -/
def lineAddr (line : J) : Int :=
  match line.getField "address" with
  | some (J.num a) => a
  | _ => 0

/-- The reference-collection loop of `findStringReferences`
(lines 1030-1045), with its duplicate-address suppression. -/
def collectRefs (searchAddrs : List Int) (lines : List J) : List J :=
  lines.foldl (fun refs line =>
    let operands := lineStr line "operands"
    let instruction_text :=
      ((lineStr line "instruction") ++ " " ++ operands).trim
    let ref_addr := lineAddr line
    if searchAddrs.any (fun sa => isValidStringReference operands sa)
        && ref_addr != 0
        && !(refs.any (fun r => lineAddr r == ref_addr)) then
      refs ++ [J.obj [("address", J.num ref_addr),
                      ("instruction", J.str instruction_text),
                      ("module", J.str "main_executable")]]
    else refs) []

/-- `Handler.findStringReferences` (line 1004): searches the main
executable's disassembly (2000 instructions) for textual references to
the string address and its 32-bit / base-offset variants.  Addresses are
non-negative in practice; the bit operations are modeled on the
non-negative range. -/
def Handler.findStringReferences (h : Handler) (stringAddress : Int) : HRes :=
  match h.target with
  | none => (h, [], .ok (buildError "no target"))
  | some t =>
    if !t.valid then (h, [], .ok (buildError "no target"))
    else
      match t.process with
      | none => (h, [], .ok (buildError "no process"))
      | some p =>
        if !p.valid then (h, [], .ok (buildError "no process"))
        else
          let references :=
            match t.mainDisasmLines 2000 with
            | some lines =>
              let searchAddrs := [stringAddress,
                stringAddress.emod 4294967296,
                Int.ofNat (Nat.lor stringAddress.toNat 4294967296)]
              collectRefs searchAddrs lines
            | none => []
          (h, [], .ok (J.obj [("type", J.str "string_references"),
            ("payload", J.obj [("string_address", J.num stringAddress),
                               ("references", J.arr references),
                               ("count", J.num references.length)])]))

/-- `Handler.getCallstack` (line 1114): no `None` check on the selected
thread; the frame descriptors (`getFrameDesc`) are engine data. -/
def Handler.getCallstack (h : Handler) : HRes :=
  match h.target with
  | none => (h, [], .ok (buildError "no process"))
  | some t =>
    match t.process with
    | none => (h, [], .ok (buildError "no process"))
    | some p =>
      match p.selectedThread with
      | none => (h, [], .error "TypeError: NoneType object is not iterable")
      | some th =>
        (h, [], .ok (J.obj [("status", J.str "ok"),
                            ("callstack", J.arr th.frameDescs)]))

/-- `Handler.selectFrame` (line 1123): engine-side frame-focus mutation;
raises if no thread is selected. -/
def Handler.selectFrame (h : Handler) (_index : Int) : HRes :=
  match h.target with
  | none => (h, [], .ok (buildError "no process"))
  | some t =>
    match t.process with
    | none => (h, [], .ok (buildError "no process"))
    | some p =>
      match p.selectedThread with
      | none =>
        (h, [], .error ("\x27NoneType\x27 object has no attribute "
          ++ "\x27SetSelectedFrame\x27"))
      | some _ => (h, [], .ok buildOK)

/-- `Handler.setRegister` (line 1130). -/
def Handler.setRegister (h : Handler) (name value : String) : HRes :=
  match h.target with
  | none => (h, [], .ok (buildError "no process"))
  | some t =>
    match t.process with
    | none => (h, [], .ok (buildError "no process"))
    | some p =>
      match p.selectedThread with
      | none =>
        (h, [], .error ("\x27NoneType\x27 object has no attribute "
          ++ "\x27GetSelectedFrame\x27"))
      | some _ =>
        if !p.findReg name then (h, [], .ok (buildError "register not found"))
        else if !p.setRegOK name value then
          (h, [], .ok (buildError ("cannot set the register value: "
            ++ p.setRegErr)))
        else (h, [], .ok buildOK)

/-- `Handler.executeCommand` (line 1143): raw engine CLI command; output,
error and success flag are engine data. -/
def Handler.executeCommand (h : Handler) (cmd : String) : HRes :=
  let (out, errOut, succ) := h.debugger.handleCommandOut cmd
  (h, [], .ok (J.obj [("status", J.str "ok"), ("output", out),
                      ("error", errOut), ("succeeded", J.bool succ)]))

/-- `Handler.completeCommand` (line 1153). -/
def Handler.completeCommand (h : Handler) (cmd : String) (pos : Int) : HRes :=
  (h, [], .ok (J.obj [("status", J.str "ok"),
    ("completions", J.arr ((h.debugger.completions cmd pos).map J.str))]))

/-- `Handler.sendToApplication` (line 1161): builds a string from the
byte list with `reduce`/`chr` inside a `try`; an empty list (reduce on
nothing), a non-list, a non-integer element or an out-of-range code point
all raise and are converted to the error result. -/
def Handler.sendToApplication (h : Handler) (data : J) : HRes :=
  match h.target with
  | none => (h, [], .ok (buildError "no process"))
  | some t =>
    match t.process with
    | none => (h, [], .ok (buildError "no process"))
    | some _ =>
      match data with
      | J.arr xs =>
        if !xs.isEmpty && xs.all (fun x =>
            match x with
            | J.num n => 0 ≤ n && n < 1114112
            | _ => false) then
          (h, [], .ok buildOK)
        else (h, [], .ok (buildError "cannot build string to send"))
      | _ => (h, [], .ok (buildError "cannot build string to send"))

/-! ### The request dispatcher -/

/-- `req[k]` on a command object: the value, or `KeyError` text. -/
def reqGet (req : J) (k : String) : Except String J :=
  match req.getField k with
  | some v => .ok v
  | none => .error (sq k)

/-- Coerce an argument to a string; engine calls on non-string arguments
raise a `TypeError` (text abbreviated). -/
def asStr (v : J) (what : String) : Except String String :=
  match v with
  | J.str s => .ok s
  | _ => .error ("TypeError: " ++ what ++ " is not a string")

/-- Coerce an argument to an integer; engine calls on non-integer
arguments raise a `TypeError` (text abbreviated). -/
def asInt (v : J) (what : String) : Except String Int :=
  match v with
  | J.num n => .ok n
  | _ => .error ("TypeError: " ++ what ++ " is not an integer")

/-- Unwrap argument-extraction failures into an uncaught exception of the
dispatch step. -/
def runArgs (h : Handler) (act : Except String HRes) : HRes :=
  match act with
  | .ok r => r
  | .error e => (h, [], .error e)

/-- The `count_int = int(count) if isinstance(count, str) else count`
conversion of `getMainExecutableDisassembly` (line 974). -/
def pyIntOf (v : J) : Except String Int :=
  match v with
  | J.num n => .ok n
  | J.str s =>
    match s.toInt? with
    | some n => .ok n
    | none => .error "invalid literal for int() with base 10"
  | _ => .error "TypeError: count is not an integer"

/-- The `elif` chain of `Handler.handleRequest` (line 1172), dispatching
on the already-extracted command string. -/
def dispatchCommand (h : Handler) (req : J) (c : String) : HRes :=
  if c = "ping" then (h, [], .ok buildOK)
  else if c = "prepareExecutable" then
    runArgs h (do
      let pathJ ← reqGet req "path"
      let is64 ← reqGet req "is64Bits"
      let cwd ← reqGet req "cwd"
      let args ← reqGet req "args"
      let path ← asStr pathJ "path"
      return h.prepareExecutable path is64 cwd args)
  else if c = "createProcess" then h.createProcess
  else if c = "attachToProcess" then
    runArgs h (do
      let pidJ ← reqGet req "pid"
      let exeJ ← reqGet req "executable"
      let is64 ← reqGet req "is64Bits"
      let pid ← asInt pidJ "pid"
      let exe ← asStr exeJ "executable"
      return h.attachToProcess pid.toNat exe is64)
  else if c = "detach" then h.detach
  else if c = "deleteProcess" then h.deleteProcess
  else if c = "hasProcess" then h.hasProcess
  else if c = "getProcessState" then h.getProcessState
  else if c = "continueExecution" then h.continueExecution
  else if c = "stopExecution" then h.stopExecution
  else if c = "breakExecution" then h.breakExecution
  else if c = "forceStopAndReport" then h.forceStopAndReport
  else if c = "getThreadIDList" then h.getThreadIDList
  else if c = "selectThreadID" then
    runArgs h (do
      let tidJ ← reqGet req "tid"
      let tid ← asInt tidJ "tid"
      return h.selectThreadID tid.toNat)
  else if c = "getRegisters" then h.getRegisters
  else if c = "disassembly" then
    runArgs h (do
      let aJ ← reqGet req "address"
      let cJ ← reqGet req "count"
      let a ← asInt aJ "address"
      let cnt ← asInt cJ "count"
      return h.disassembly a cnt)
  else if c = "getMainExecutableDisassembly" then
    -- `req.get('count', 100)`; the handler converts a string count
    runArgs h (do
      let cnt ← pyIntOf ((req.getField "count").getD (J.num 100))
      return h.getMainExecutableDisassembly cnt)
  else if c = "findStringReferences" then
    -- `req.get('stringAddress', 0)`; a non-integer raises in the
    -- hex-format logging f-string
    let saJ := (req.getField "stringAddress").getD (J.num 0)
    runArgs h (do
      let sa ← asInt saJ "stringAddress"
      return h.findStringReferences sa)
  else if c = "setBreakpointAtVirtualAddress" then
    runArgs h (do
      let aJ ← reqGet req "address"
      let a ← asInt aJ "address"
      return h.setBreakpointAtVirtualAddress a)
  else if c = "removeBreakpoint" then
    runArgs h (do
      let bJ ← reqGet req "bkpt_id"
      let b ← asInt bJ "bkpt_id"
      return h.removeBreakpoint b)
  else if c = "removeAllBreakpoints" then h.removeAllBreakpoints
  else if c = "stepInstruction" then h.stepInstruction
  else if c = "stepOver" then h.stepOver
  else if c = "stepOut" then h.stepOut
  else if c = "readMemory" then
    runArgs h (do
      let aJ ← reqGet req "address"
      let nJ ← reqGet req "length"
      let a ← asInt aJ "address"
      let n ← asInt nJ "length"
      return h.readMemory a n)
  else if c = "writeByte" then
    runArgs h (do
      let aJ ← reqGet req "address"
      let vJ ← reqGet req "value"
      let a ← asInt aJ "address"
      let v ← asInt vJ "value"
      return h.writeByte a v)
  else if c = "getCallstack" then h.getCallstack
  else if c = "selectFrame" then
    runArgs h (do
      let iJ ← reqGet req "index"
      let i ← asInt iJ "index"
      return h.selectFrame i)
  else if c = "setRegister" then
    runArgs h (do
      let rJ ← reqGet req "register"
      let vJ ← reqGet req "value"
      let r ← asStr rJ "register"
      let v ← asStr vJ "value"
      return h.setRegister r v)
  else if c = "executeCommand" then
    runArgs h (do
      let cliJ ← reqGet req "cli"
      let cli ← asStr cliJ "cli"
      return h.executeCommand cli)
  else if c = "completeCommand" then
    runArgs h (do
      let cliJ ← reqGet req "cli"
      let posJ ← reqGet req "pos"
      let cli ← asStr cliJ "cli"
      let pos ← asInt posJ "pos"
      return h.completeCommand cli pos)
  else if c = "sendToApplication" then
    runArgs h (do
      let dataJ ← reqGet req "data"
      return h.sendToApplication dataJ)
  else if c = "moduleCount" then h.moduleCount
  else if c = "moduleAtIndex" then
    runArgs h (do
      let iJ ← reqGet req "index"
      let i ← asInt iJ "index"
      return h.moduleAtIndex i)
  else if c = "moduleForFile" then
    runArgs h (do
      let fJ ← reqGet req "file"
      let f ← asStr fJ "file"
      return h.moduleForFile f)
  else if c = "connectRemote" then
    runArgs h (do
      let is64 ← reqGet req "is64Bits"
      let urlJ ← reqGet req "url"
      let plugJ ← reqGet req "plugin"
      let plat ← reqGet req "platform"
      let fileJ ← reqGet req "file"
      let url ← asStr urlJ "url"
      let plug ← asStr plugJ "plugin"
      let file ← asStr fileJ "file"
      return h.connectRemote is64 url plug plat file)
  else
    (h, [], .ok (buildError ("unknown command " ++ sq c)))

/-- `Handler.handleRequest` (line 1172): extract `req['command']` and
dispatch.  A non-object document raises on subscripting; a non-string
command falls through every comparison and raises when concatenated into
the unknown-command message. -/
def handleRequest (h : Handler) (req : J) : HRes :=
  match req with
  | J.obj fs =>
    match J.lookup fs "command" with
    | none => (h, [], .error (sq "command"))
    | some (J.str c) => dispatchCommand h (J.obj fs) c
    | some _ =>
      (h, [], .error "TypeError: can only concatenate str to str")
  | _ => (h, [], .error "TypeError: request is not subscriptable")

/-! ### The dispatch loop `Handler.run` (line 1257)

The loop reads one framed message, decodes it with `json.loads`
(modeled as an already-decoded `Option J`: `none` covers both an
undecodable document and the literal `null`), dispatches, converts an
uncaught handler exception into a "bad request" error, copies the
caller's `id` when present, and sends exactly one result per message.
The `"id" in req` / `req["id"]` steps run outside the `try` that guards
`handleRequest`, so they can raise and kill the dispatch thread. -/

/-- Python `"id" in req` for each JSON shape: key test on objects,
element test on arrays, substring test on strings, `TypeError` on
numbers, booleans and `None`. -/
def pyHasId : J → Except String Bool
  | J.obj fs => .ok (J.lookup fs "id").isSome
  | J.arr xs => .ok (xs.any (fun x =>
      match x with
      | J.str s => s = "id"
      | _ => false))
  | J.str s => .ok (strContains s "id")
  | _ => .error "TypeError: argument of type is not iterable"

/-- Python `req["id"]`: succeeds only on objects. -/
def pyIndexId : J → Except String J
  | J.obj fs =>
    match J.lookup fs "id" with
    | some v => .ok v
    | none => .error (sq "id")
  | _ => .error "TypeError: indices must be integers"

/-- Lines 1284-1285 of `Handler.run`: copy the caller's id into the
result when present. -/
def pyAttachId (req result : J) : Except String J := do
  let b ← pyHasId req
  if b then
    let v ← pyIndexId req
    return result.setField "id" v
  else
    return result

/-- The single reply document `Handler.run` produces for one decoded
command (before id propagation): the handler result, or the
"bad request" conversion of an uncaught handler exception. -/
def dispatchResult (h : Handler) (req : J) : J :=
  match (handleRequest h req).2.2 with
  | .ok r => r
  | .error e => buildError ("bad request: " ++ e)

/-- One emitted message of a dispatch-loop run, tagged by whether it was
sent as the per-command reply or pushed as a notification while
handling. -/
inductive TraceItem where
  | note (j : J)
  | reply (j : J)

/-- The dispatch loop over a list of decoded inbound documents.  A
failure of the id-propagation step is an uncaught exception: the thread
dies after the notifications already sent, delivering no reply and
processing no further input. -/
def runLoop : Handler → List (Option J) → List TraceItem
  | _, [] => []
  | h, none :: rest =>
    .reply (buildError "cannot decode JSON") :: runLoop h rest
  | h, some req :: rest =>
    let r := handleRequest h req
    let result := match r.2.2 with
      | .ok j => j
      | .error e => buildError ("bad request: " ++ e)
    match pyAttachId req result with
    | .error _ => r.2.1.map .note
    | .ok result1 => r.2.1.map .note ++ (.reply result1 :: runLoop r.1 rest)

/-- The per-command replies of a trace, in order. -/
def repliesOf : List TraceItem → List J
  | [] => []
  | .note _ :: r => repliesOf r
  | .reply j :: r => j :: repliesOf r

/-! ### Binary-mode framing (`transportRead`, line 204)

The input is a sequence of chunk deliveries: `input_fd.read(n)` returns
up to `n` bytes from the first pending chunk, and an exhausted stream
(or an empty chunk) yields the empty read that signals EOF. -/

/-- A chunk of bytes as delivered by one `read` call. -/
abbrev Chunk := List Nat

/-- The inbound byte stream: the chunks `read` will deliver, in order. -/
abbrev ByteStream := List Chunk

/-- All bytes the stream will ever deliver. -/
def flatBytes (s : ByteStream) : List Nat := s.flatten

/-- `input_fd.read(n)`: at most `n` bytes, taken from the first chunk;
the empty result on an exhausted stream signals EOF. -/
def fdRead : ByteStream → Nat → (Chunk × ByteStream)
  | [], _ => ([], [])
  | c :: rest, n =>
    if c.length ≤ n then (c, rest) else (c.take n, c.drop n :: rest)

/-- Little-endian unsigned decoding of a 4-byte header. -/
def decU32 : List Nat → Nat
  | [a, b, c, d] => a + 256 * b + 65536 * c + 16777216 * d
  | _ => 0

/-- `struct.unpack('i', …)`: little-endian, signed. -/
def decI32 (bs : List Nat) : Int :=
  let u := decU32 bs
  if u < 2147483648 then (u : Int) else (u : Int) - 4294967296

/-- `struct.pack('i', n)` for `0 ≤ n < 2^31` (larger lengths raise in
`struct.pack` before anything is written). -/
def encU32 (n : Nat) : List Nat :=
  [n % 256, n / 256 % 256, n / 65536 % 256, n / 16777216 % 256]

/-- The payload loop of `transportRead` (lines 218-224): read until the
accumulated length matches, treating an empty read as stream closure.
`readPayload s n` returns the `n` payload bytes and the rest of the
stream, or `none` on closure. -/
def readPayload : ByteStream → Nat → Option (Chunk × ByteStream)
  | s, 0 => some ([], s)
  | [], _ + 1 => none
  | c :: rest, n + 1 =>
    if c.isEmpty then none
    else if c.length ≤ n + 1 then
      match readPayload rest (n + 1 - c.length) with
      | some (msg, s1) => some (c ++ msg, s1)
      | none => none
    else
      some (c.take (n + 1), c.drop (n + 1) :: rest)

/-- `Handler.transportRead` in binary mode: read the 4-byte header (a
short header read reports closure), decode the signed length, then read
exactly that many payload bytes.  A negative decoded length makes the
payload loop issue `read(-…)` calls until the stream is drained and the
empty read reports closure, so it is closure as well. -/
def transportRead (s : ByteStream) : Option (Chunk × ByteStream) :=
  let (hdr, s1) := fdRead s 4
  if hdr.length < 4 then none
  else
    let len := decI32 hdr
    if len < 0 then none
    else readPayload s1 len.toNat

/-- The read side of the dispatch loop with explicit fuel (any fuel
above the total byte count is enough, since a successful read consumes
at least the 4 header bytes). -/
def serverReadsF : Nat → ByteStream → List Chunk
  | 0, _ => []
  | fuel + 1, s =>
    match transportRead s with
    | none => []
    | some (msg, s1) => msg :: serverReadsF fuel s1

/-- All complete messages the dispatch loop reads before terminating on
stream closure. -/
def serverReads (s : ByteStream) : List Chunk :=
  serverReadsF ((flatBytes s).length + 1) s

/-! ### Event-thread notifications (`EventThread.run`, line 122) -/

/-- The generic state event (line 151): a legacy message carrying both
`status:"event"` and a `type` field, plus the exit status when the state
is `eStateExited`. -/
def eventStateMsg (st : Nat) (exitStatus : Int) : J :=
  J.obj ([("status", J.str "event"), ("type", J.str "state"),
          ("inferior_state", J.num st),
          ("state_desc", J.str (stateToString st))]
    ++ (if st = 10 then [("exit_status", J.num exitStatus)] else []))

/-- The `stdout` event (line 181): hex-encoded output chunk. -/
def eventStdoutMsg (out : String) : J :=
  J.obj [("status", J.str "event"), ("type", J.str "stdout"),
         ("output", J.str out)]

/-- The `stderr` event (line 185). -/
def eventStderrMsg (out : String) : J :=
  J.obj [("status", J.str "event"), ("type", J.str "stderr"),
         ("output", J.str out)]

/-- The `detached` notification (line 177). -/
def eventDetachedMsg : J := J.obj [("type", J.str "detached")]

/-- The `moduleLoaded` event (line 190). -/
def eventModuleLoadedMsg (mods : List J) : J :=
  J.obj [("status", J.str "event"), ("type", J.str "moduleLoaded"),
         ("modules", J.arr mods)]

/-- The `moduleUnloaded` event (line 193): always an empty module list. -/
def eventModuleUnloadedMsg : J :=
  J.obj [("status", J.str "event"), ("type", J.str "moduleUnloaded"),
         ("modules", J.arr [])]

/-- The set of messages `EventThread.run` can emit, one constructor per
`sendJSON` site in its body. -/
inductive EventThreadMessage : J → Prop where
  | state (st : Nat) (ex : Int) : EventThreadMessage (eventStateMsg st ex)
  | stopped (reason : String) (tid pc : Nat) :
      EventThreadMessage (stoppedNote reason tid pc)
  | detached : EventThreadMessage eventDetachedMsg
  | stdout (out : String) : EventThreadMessage (eventStdoutMsg out)
  | stderr (out : String) : EventThreadMessage (eventStderrMsg out)
  | modulesLoaded (mods : List J) :
      EventThreadMessage (eventModuleLoadedMsg mods)
  | modulesUnloaded : EventThreadMessage eventModuleUnloadedMsg

/-! ### The transport writer lock (`transportWrite`, line 242)

Binary-mode `transportWrite` acquires `transport_lock`, writes the
4-byte length prefix, writes the payload, flushes and releases.  Each
writer thread (the dispatcher, the event thread) is a sequence of such
calls; the model below is a small-step semantics of any number of such
threads interleaved at instruction granularity, where only `lock`
blocks (on a held lock) and `write` appends to the shared output. -/

/-- One instruction of a writer thread. -/
inductive WInstr where
  | lock
  | write (bs : List Nat)
  | unlock

/-- The framed encoding of one payload on the wire. -/
def frameBytes (p : List Nat) : List Nat := encU32 p.length ++ p

/-- The instruction sequence of one `transportWrite(payload)` call. -/
def msgProg (p : List Nat) : List WInstr :=
  [WInstr.lock, WInstr.write (encU32 p.length), WInstr.write p, WInstr.unlock]

/-- A writer-system state: the remaining program of each thread, the
current lock holder, and the bytes written to the shared stream so far. -/
structure WState where
  progs : List (List WInstr)
  holder : Option Nat
  out : List Nat

/-- Interleaved execution: any thread may take its next step, but
acquiring the lock requires it to be free.  `write` and `unlock` are not
themselves guarded — mutual exclusion of the write sequences is a
consequence of the program structure, proved below, not an assumption. -/
inductive WStep : WState → WState → Prop where
  | lock (s : WState) (i : Nat) (rest : List WInstr) :
      s.holder = none → s.progs[i]? = some (WInstr.lock :: rest) →
      WStep s ⟨s.progs.set i rest, some i, s.out⟩
  | write (s : WState) (i : Nat) (bs : List Nat) (rest : List WInstr) :
      s.progs[i]? = some (WInstr.write bs :: rest) →
      WStep s ⟨s.progs.set i rest, s.holder, s.out ++ bs⟩
  | unlock (s : WState) (i : Nat) (rest : List WInstr) :
      s.progs[i]? = some (WInstr.unlock :: rest) →
      WStep s ⟨s.progs.set i rest, none, s.out⟩

/-- The initial state for given per-thread message lists. -/
def wInit (threadMsgs : List (List (List Nat))) : WState :=
  ⟨threadMsgs.map (fun ms => (ms.map msgProg).flatten), none, []⟩

/-- Frame-decoding of a byte stream with explicit fuel: split off one
4-byte length prefix and its payload at a time.  Any fuel at least the
byte count is enough, since a frame takes at least 4 bytes. -/
def decodeFramesF : Nat → List Nat → Option (List (List Nat))
  | _, [] => some []
  | 0, _ :: _ => none
  | fuel + 1, b :: bs =>
    let all := b :: bs
    if all.length < 4 then none
    else
      let u := decU32 (all.take 4)
      if 2147483648 ≤ u then none
      else if all.length < 4 + u then none
      else
        match decodeFramesF fuel (all.drop (4 + u)) with
        | some ps => some ((all.drop 4).take u :: ps)
        | none => none

/-- Decode a whole output stream into its framed payloads. -/
def decodeFrames (bs : List Nat) : Option (List (List Nat)) :=
  decodeFramesF (bs.length + 1) bs

/-! ### Predicates used by the statements -/

/-- Whether a document is an object. -/
def J.isObj : J → Bool
  | J.obj _ => true
  | _ => false

/-- The message taxonomy field test: carries a `status` field or a
`type` field. -/
def statusOrType (j : J) : Bool := j.hasField "status" || j.hasField "type"

/-- Well-shapedness of one handler outcome: a non-raising result is an
object carrying `status` or `type`, and so is every notification pushed
while handling. -/
def GoodRes (r : HRes) : Prop :=
  (∀ j, r.2.2 = .ok j → j.isObj = true ∧ statusOrType j = true) ∧
  (∀ j ∈ r.2.1, statusOrType j = true)

/-- A writer thread's remaining program sits at a message boundary: it is
the instruction sequence of some list of payloads, all drawn from the
submitted set `M`. -/
def Boundary (M : List (List Nat)) (prog : List WInstr) : Prop :=
  ∃ ps : List (List Nat), (∀ p ∈ ps, p ∈ M) ∧ prog = (ps.map msgProg).flatten

/-- The shared output is a concatenation of complete frames of submitted
payloads. -/
def FramedOut (M : List (List Nat)) (out : List Nat) : Prop :=
  ∃ ps : List (List Nat), (∀ p ∈ ps, p ∈ M) ∧
    out = (ps.map frameBytes).flatten

/-- The lock holder's possible positions inside one `transportWrite`
critical section, with the matching shape of the shared output. -/
def MidProg (M : List (List Nat)) (prog : List WInstr) (out : List Nat) :
    Prop :=
  ∃ p tail, p ∈ M ∧ Boundary M tail ∧
    ((prog = WInstr.write (encU32 p.length) :: WInstr.write p ::
        WInstr.unlock :: tail ∧ FramedOut M out)
     ∨ (prog = WInstr.write p :: WInstr.unlock :: tail ∧
        ∃ base, FramedOut M base ∧ out = base ++ encU32 p.length)
     ∨ (prog = WInstr.unlock :: tail ∧ FramedOut M out))

/-- The writer-system invariant: with the lock free, the output is fully
framed and every thread sits at a message boundary; with the lock held,
every other thread sits at a boundary and the holder is mid-section. -/
def WInv (M : List (List Nat)) (s : WState) : Prop :=
  match s.holder with
  | none =>
    FramedOut M s.out ∧
    ∀ (j : Nat) (pr : List WInstr), s.progs[j]? = some pr → Boundary M pr
  | some i =>
    (∀ (j : Nat) (pr : List WInstr), j ≠ i → s.progs[j]? = some pr →
      Boundary M pr) ∧
    ∃ pr : List WInstr, s.progs[i]? = some pr ∧ MidProg M pr s.out

/-! ### Concrete fixtures for witnesses and counterexamples -/

/-- A valid selected thread stopped at a breakpoint, pc 4096. -/
def okThread : EngineThread :=
  { valid := true, tid := 1, stopReason := 3, frameValid := true,
    framePC := 4096, frameDescs := [] }

/-- A valid stopped process with fully accessible memory. -/
def okProcess : EngineProcess :=
  { valid := true, state := 5, pollStates := fun _ => 5, exitStatus := 0,
    mem := fun _ => 0, readOK := fun _ _ => true, writeOK := fun _ => true,
    writeErrMsg := "", selectedThread := some okThread,
    threads := [okThread], gprs := [("rip", J.str "0x1000")], fprs := [],
    esrs := [], findReg := fun _ => true, setRegOK := fun _ _ => true,
    setRegErr := "" }

/-- The same process observed mid-run: never stopped during any poll. -/
def runningProcess : EngineProcess :=
  { okProcess with state := 6, pollStates := fun _ => 6 }

/-- A valid target whose engine calls all succeed. -/
def okTarget : Target :=
  { valid := true, process := some okProcess, numModules := 3,
    launchResult := .ok okProcess, attachResult := fun _ => .ok okProcess,
    connectResult := some okProcess, findModuleResult := fun _ => none,
    bpId := fun _ => 1, bpLocations := fun _ => [], deleteAllOK := true,
    disasmLines := fun _ _ => [], mainDisasmLines := fun _ => some [] }

/-- A distinguishable pre-existing target (7 modules, running process). -/
def oldTarget : Target :=
  { okTarget with numModules := 7, process := some runningProcess }

/-- An engine whose target creation always yields `okTarget`. -/
def okDebugger : Debugger :=
  { createTarget := fun _ => okTarget, selectedTarget := okTarget,
    handleCommandOut := fun _ => (J.null, J.null, true),
    completions := fun _ _ => [] }

/-- A freshly initialized session (`Handler.__init__`). -/
def handler0 : Handler :=
  { target := none, workingDirectory := J.null, launch_args := J.arr [],
    executable_path := J.null, is_64bit := J.bool true,
    arguments := J.null, executable := J.null, is64Bits := J.bool true,
    eventThread := .fresh, debugger := okDebugger }

/-- A session after a successful launch: target, process, event thread
running. -/
def handlerActive : Handler :=
  { handler0 with target := some okTarget, eventThread := .started }

/-- An active session holding the distinguishable `oldTarget`. -/
def handlerOld : Handler :=
  { handler0 with target := some oldTarget, eventThread := .started }

/-- The valid target holding the running process. -/
def runningTarget : Target := { okTarget with process := some runningProcess }

/-- An active session whose process is running (not stopped). -/
def handlerRunning : Handler :=
  { handler0 with target := some runningTarget, eventThread := .started }

/-- A command document with the given command name and extra fields. -/
def cmdReq (c : String) (extra : List (String × J)) : J :=
  J.obj (("command", J.str c) :: extra)

/-- A canonical well-formed request per process-dependent command, used
to state the no-process property. -/
def noProcessCmds : List J :=
  [cmdReq "continueExecution" [],
   cmdReq "stopExecution" [],
   cmdReq "breakExecution" [],
   cmdReq "stepInstruction" [],
   cmdReq "stepOver" [],
   cmdReq "stepOut" [],
   cmdReq "readMemory" [("address", J.num 0), ("length", J.num 1)],
   cmdReq "getCallstack" [],
   cmdReq "getRegisters" [],
   cmdReq "forceStopAndReport" [],
   cmdReq "detach" [],
   cmdReq "deleteProcess" [],
   cmdReq "getProcessState" [],
   cmdReq "hasProcess" [],
   cmdReq "getThreadIDList" [],
   cmdReq "selectThreadID" [("tid", J.num 1)],
   cmdReq "selectFrame" [("index", J.num 0)],
   cmdReq "setRegister" [("register", J.str "rip"), ("value", J.str "0x0")],
   cmdReq "sendToApplication" [("data", J.arr [J.num 65])],
   cmdReq "moduleCount" [],
   cmdReq "moduleAtIndex" [("index", J.num 0)],
   cmdReq "moduleForFile" [("file", J.str "a.out")],
   cmdReq "disassembly" [("address", J.num 0), ("count", J.num 1)],
   cmdReq "getMainExecutableDisassembly" [],
   cmdReq "findStringReferences" [],
   cmdReq "setBreakpointAtVirtualAddress" [("address", J.num 4096)],
   cmdReq "removeBreakpoint" [("bkpt_id", J.num 1)],
   cmdReq "removeAllBreakpoints" []]

/-- The `writeByte` request used in the C3/C5 scenarios. -/
def writeByteReq : J :=
  cmdReq "writeByte" [("address", J.num 0), ("value", J.num 7)]

/-- The `readMemory` request used in the C5 scenario. -/
def readMemoryReq : J :=
  cmdReq "readMemory" [("address", J.num 0), ("length", J.num 1)]

/-- The `prepareExecutable` request of the C4 scenario. -/
def prepReq : J :=
  cmdReq "prepareExecutable" [("path", J.str "/bin/ls"),
    ("is64Bits", J.bool true), ("cwd", J.null), ("args", J.null)]

/-- Session after `deleteProcess` on the active session. -/
def hAfterDelete : Handler :=
  (handleRequest handlerActive (cmdReq "deleteProcess" [])).1

/-- Session after re-preparing an executable post-delete. -/
def hAfterPrep : Handler := (handleRequest hAfterDelete prepReq).1

/-- Fresh session after preparing an executable. -/
def hFreshPrep : Handler := (handleRequest handler0 prepReq).1

/-! ## Theorems -/

/-- Claim C10: whenever a target and process exist, `moduleAtIndex`
returns a "bad request" error response for every non-negative index and
never a module description: the range check compares the index against
the dict returned by `moduleCount`, raising a `TypeError` that the
dispatch boundary converts into an error reply. -/
theorem moduleAtIndex_nonneg_index_bad_request (h : Handler) (t : Target)
    (p : EngineProcess) (index : Int) (ht : h.target = some t)
    (hp : t.process = some p) (hi : 0 ≤ index) :
    dispatchResult h (cmdReq "moduleAtIndex" [("index", J.num index)]) =
      buildError ("bad request: \x27>=\x27 not supported between instances "
        ++ "of \x27int\x27 and \x27dict\x27")
    ∧ (dispatchResult h (cmdReq "moduleAtIndex"
        [("index", J.num index)])).hasField "module" = false
    ∧ (dispatchResult h (cmdReq "moduleAtIndex"
        [("index", J.num index)])).getField "status" = some (J.str "error") := by
  have hnlt : ¬ index < 0 := not_lt.mpr hi
  refine ⟨?_, ?_, ?_⟩ <;>
    simp [dispatchResult, handleRequest, cmdReq, dispatchCommand, reqGet,
      J.getField, J.lookup, asInt, runArgs, Handler.moduleAtIndex, ht, hp,
      hnlt, bind, Except.bind, Functor.map, Except.map, pure, Except.pure,
      buildError, J.hasField]

/-- Witness for C10: the concrete active session at index 0. -/
theorem moduleAtIndex_nonneg_index_bad_request_witness :
    (0 : Int) ≤ 0 ∧
    dispatchResult handlerActive (cmdReq "moduleAtIndex" [("index", J.num 0)]) =
      buildError ("bad request: \x27>=\x27 not supported between instances "
        ++ "of \x27int\x27 and \x27dict\x27") :=
  ⟨by decide,
   (moduleAtIndex_nonneg_index_bad_request handlerActive okTarget okProcess 0
      rfl rfl (by decide)).1⟩

/-- Claim C5 (code bug): the read/write/read round-trip can never
reflect the written byte, because `readMemory` names its length
parameter `len`, shadowing the builtin; after every successful engine
read, `len(bytes_tuple)` raises `TypeError: 'int' object is not
callable`, so the reply is a "bad request" error and no `memory`-typed
payload is ever produced.  Here the engine read of (addr 0, length 1)
and the write of value 7 both succeed engine-side, yet the first
`readMemory` already yields the error reply. -/
theorem readMemory_len_shadowing_kills_roundtrip :
    okProcess.readOK 0 1 = true ∧ okProcess.writeOK 0 = true ∧
    dispatchResult handlerActive readMemoryReq =
      buildError ("bad request: \x27int\x27 object is not callable") ∧
    (dispatchResult handlerActive readMemoryReq).hasField "type" = false ∧
    (handleRequest handlerActive readMemoryReq).1 = handlerActive ∧
    (handleRequest handlerActive writeByteReq).2.2 =
      .ok (J.obj [("type", J.str "writeByte"),
        ("payload", J.obj [("success", J.bool true), ("error", J.null),
                           ("address", J.num 0), ("value", J.num 7)])]) ∧
    ((handleRequest handlerActive writeByteReq).1.target.map
      (fun t => t.process.map (fun p => p.mem 0))) = some (some 7) :=
  ⟨rfl, rfl, rfl, rfl, rfl, rfl, rfl⟩

/-- Claim C1 (code bug): with a target already present, the effective
`createProcess` does not fail with "process already exists" (that guard
lives only in the shadowed definition at line 287): it re-launches the
existing target — replacing its process (state 6 becomes state 5) — and
then fails on restarting the event thread; and the effective
`attachToProcess` unconditionally overwrites the existing target (7
modules) with a freshly created one (3 modules) and reports ok. -/
theorem second_launch_attach_no_alreadyExists :
    handlerOld.target = some oldTarget ∧
    (handlerOld.createProcess.2.2 =
      .ok (buildError "failed to create process: threads can only be started once")) ∧
    (handlerOld.createProcess.1.target.map
      (fun t => t.process.map (fun p => p.state)) = some (some 5)) ∧
    (oldTarget.process.map (fun p => p.state) = some 6) ∧
    ((handlerOld.attachToProcess 42 "a.out" (J.bool true)).2.2 = .ok buildOK) ∧
    ((handlerOld.attachToProcess 42 "a.out" (J.bool true)).1.target.map
      Target.numModules = some 3) ∧
    (oldTarget.numModules = 7) :=
  ⟨rfl, rfl, rfl, rfl, rfl, rfl, rfl⟩

/-- Claim C4 (code bug): after a successful `deleteProcess`, a new
`prepareExecutable` is accepted, but the following `createProcess` fails:
`deleteProcess` set `self.eventThread = None` and nothing recreates it,
so `self.eventThread.start()` raises and the reply is an error — whereas
the identical prepare/launch sequence from the fresh initial session
succeeds with status ok. -/
theorem relaunch_after_deleteProcess_fails :
    ((handleRequest handlerActive (cmdReq "deleteProcess" [])).2.2 = .ok buildOK) ∧
    ((handleRequest hAfterDelete prepReq).2.2 = .ok buildOK) ∧
    ((handleRequest hAfterPrep (cmdReq "createProcess" [])).2.2 =
      .ok (buildError ("failed to create process: \x27NoneType\x27 object "
        ++ "has no attribute \x27start\x27"))) ∧
    ((handleRequest handler0 prepReq).2.2 = .ok buildOK) ∧
    ((handleRequest hFreshPrep (cmdReq "createProcess" [])).2.2 = .ok buildOK) :=
  ⟨rfl, rfl, rfl, rfl, rfl⟩

/-- Counterexample to claim C3 as stated: `writeByte` with no process
does not reply with an error response: its reply is a typed `writeByte`
envelope with no `status` field at all, only a `success:false` payload. -/
theorem writeByte_no_process_not_error_response :
    handler0.target = none ∧
    (dispatchResult handler0 writeByteReq).hasField "status" = false ∧
    (dispatchResult handler0 writeByteReq).getField "type" =
      some (J.str "writeByte") ∧
    (dispatchResult handler0 writeByteReq).getField "payload" =
      some (J.obj [("success", J.bool false), ("error", J.str "no process"),
                   ("address", J.num 0), ("value", J.num 7)]) :=
  ⟨rfl, rfl, rfl, rfl⟩

/-- Counterexample to claim C6 as stated: `stepInstruction` on a process
the engine reports as running (state 6, and still running at the first
poll instant) replies ok immediately, emits no completion notification at
all, and performs no poll for the stopped state. -/
theorem stepInstruction_no_poll_no_notification :
    runningProcess.state = 6 ∧
    runningProcess.pollStates 0 = 6 ∧
    (handleRequest handlerRunning (cmdReq "stepInstruction" [])).2.1 = [] ∧
    (handleRequest handlerRunning (cmdReq "stepInstruction" [])).2.2 = .ok buildOK :=
  ⟨rfl, rfl, rfl, rfl⟩

/-- Counterexample to claim C8 as stated: the legacy state event carries
both a `status` field (`"event"`) and a `type` field, and the
`getRegisters` reply carries a `type` field but no `status` field — so
field presence does not separate replies from unsolicited events. -/
theorem reply_event_field_ambiguity :
    EventThreadMessage (eventStateMsg 5 0) ∧
    (eventStateMsg 5 0).hasField "status" = true ∧
    (eventStateMsg 5 0).hasField "type" = true ∧
    (dispatchResult handlerActive (cmdReq "getRegisters" [])).hasField
      "status" = false ∧
    (dispatchResult handlerActive (cmdReq "getRegisters" [])).hasField
      "type" = true :=
  ⟨EventThreadMessage.state 5 0, rfl, rfl, rfl, rfl⟩

/-- Claim C3, amended: with no target, every process-dependent command
replies with a `status:error` response and leaves the session unchanged —
except `writeByte`, which leaves the session unchanged but replies with
the typed `writeByte` failure envelope instead of an error response. -/
theorem no_process_commands_error_unchanged (h : Handler)
    (ht : h.target = none) :
    (∀ req ∈ noProcessCmds,
      (handleRequest h req).1 = h ∧
      (dispatchResult h req).getField "status" = some (J.str "error")) ∧
    ((handleRequest h writeByteReq).1 = h ∧
     (dispatchResult h writeByteReq).getField "type" =
       some (J.str "writeByte") ∧
     (dispatchResult h writeByteReq).hasField "status" = false) := by
  constructor
  · intro req hreq
    fin_cases hreq <;>
      refine ⟨?_, ?_⟩ <;>
        simp [dispatchResult, handleRequest, cmdReq, dispatchCommand, reqGet,
          J.getField, J.lookup, asInt, asStr, pyIntOf, runArgs, ht, buildError,
          bind, Except.bind, Functor.map, Except.map, pure, Except.pure,
          Handler.continueExecution, Handler.stopExecution,
          Handler.breakExecution, Handler.stepInstruction, Handler.stepOver,
          Handler.stepOut, Handler.readMemory, Handler.getCallstack,
          Handler.getRegisters, Handler.forceStopAndReport, Handler.detach,
          Handler.deleteProcess, Handler.getProcessState, Handler.hasProcess,
          Handler.getThreadIDList, Handler.selectThreadID,
          Handler.selectFrame, Handler.setRegister,
          Handler.sendToApplication, Handler.moduleCount,
          Handler.moduleAtIndex, Handler.moduleForFile, Handler.disassembly,
          Handler.getMainExecutableDisassembly, Handler.findStringReferences,
          Handler.setBreakpointAtVirtualAddress, Handler.removeBreakpoint,
          Handler.removeAllBreakpoints]
  · refine ⟨?_, ?_, ?_⟩ <;>
      simp [dispatchResult, handleRequest, writeByteReq, cmdReq,
        dispatchCommand, reqGet, J.getField, J.lookup, asInt, runArgs, ht,
        bind, Except.bind, Functor.map, Except.map, pure, Except.pure,
        Handler.writeByte, J.hasField]

/-- Witness for the amended C3: the fresh session, on `continueExecution`
and on `writeByte`. -/
theorem no_process_commands_error_unchanged_witness :
    ((handleRequest handler0 (cmdReq "continueExecution" [])).1 = handler0 ∧
     (dispatchResult handler0 (cmdReq "continueExecution" [])).getField
       "status" = some (J.str "error")) ∧
    (dispatchResult handler0 writeByteReq).getField "type" =
      some (J.str "writeByte") :=
  ⟨(no_process_commands_error_unchanged handler0 rfl).1 _ (List.Mem.head _),
   (no_process_commands_error_unchanged handler0 rfl).2.2.1⟩

/-- Helper: the bounded poll loop performs at most `remaining` more
polls beyond those already used. -/
theorem pollLoop_le (p : EngineProcess) :
    ∀ remaining used, pollLoop p remaining used ≤ remaining + used := by
  intro remaining
  induction remaining with
  | zero => intro used; simp [pollLoop]
  | succ n ih =>
    intro used
    by_cases hst : p.pollStates used = 5
    · simp [pollLoop, hst]
      omega
    · have hrec := ih (used + 1)
      simp [pollLoop, hst]
      omega

/-- Claim C6, amended: the stepping commands reply ok immediately, with
no polling and no notification; the bounded poll and the completion
notification carrying the last-known program counter (even when
unchanged) belong to the separate `forceStopAndReport` command, which
polls at most 20 times and always emits exactly one `stopped`
notification. -/
theorem stepping_immediate_forceStop_bounded (h : Handler) (t : Target)
    (p : EngineProcess) (th : EngineThread) (ht : h.target = some t)
    (hp : t.process = some p) (hth : p.selectedThread = some th)
    (hv : th.valid = true) (hf : th.frameValid = true) :
    h.stepInstruction = (h, [], .ok buildOK) ∧
    h.stepOver = (h, [], .ok buildOK) ∧
    h.stepOut = (h, [], .ok buildOK) ∧
    h.forceStopAndReport = (h,
      [stoppedNote (stopReasonToString th.stopReason) th.tid th.framePC],
      .ok buildOK) ∧
    fsrPolls p ≤ 20 := by
  refine ⟨?_, ?_, ?_, ?_, ?_⟩
  · simp [Handler.stepInstruction, ht, hp, hth]
  · simp [Handler.stepOver, ht, hp, hth]
  · simp [Handler.stepOut, ht, hp, hth]
  · simp [Handler.forceStopAndReport, ht, hp, hth, hv, hf]
  · simpa using pollLoop_le p 20 0

/-- Witness for the amended C6: the concrete active session. -/
theorem stepping_immediate_forceStop_bounded_witness :
    handlerActive.stepInstruction = (handlerActive, [], .ok buildOK) ∧
    handlerActive.forceStopAndReport = (handlerActive,
      [stoppedNote "Breakpoint" 1 4096], .ok buildOK) ∧
    fsrPolls okProcess ≤ 20 :=
  ⟨(stepping_immediate_forceStop_bounded handlerActive okTarget okProcess
      okThread rfl rfl rfl rfl rfl).1,
   (stepping_immediate_forceStop_bounded handlerActive okTarget okProcess
      okThread rfl rfl rfl rfl rfl).2.2.2.1,
   (stepping_immediate_forceStop_bounded handlerActive okTarget okProcess
      okThread rfl rfl rfl rfl rfl).2.2.2.2⟩

/-- A plain ok-tuple outcome with a well-shaped document. -/
theorem goodRes_tuple_ok (h : Handler) (j : J) (hobj : j.isObj = true)
    (hst : statusOrType j = true) : GoodRes (h, ([] : List J), .ok j) := by
  constructor
  · intro j2 hok
    simp at hok
    subst hok
    exact ⟨hobj, hst⟩
  · intro j2 hj
    simp at hj

/-- A raising outcome is vacuously well-shaped. -/
theorem goodRes_tuple_err (h : Handler) (e : String) :
    GoodRes (h, ([] : List J), .error e) := by
  constructor
  · intro j2 hok
    simp at hok
  · intro j2 hj
    simp at hj

/-- A well-shaped argument chain yields a well-shaped `runArgs`. -/
theorem goodRes_runArgs (h : Handler) (act : Except String HRes)
    (hact : ∀ r, act = .ok r → GoodRes r) : GoodRes (runArgs h act) := by
  cases act with
  | ok r => exact hact r rfl
  | error e =>
    constructor
    · intro j2 hok
      simp [runArgs] at hok
    · intro j2 hj
      simp [runArgs] at hj

/-- Outcome shape of `Handler.prepareExecutable`: non-raising results are objects carrying
`status` or `type`, and so are all pushed notifications. -/
theorem goodRes_prepareExecutable (h : Handler) (path : String) (is64 cwd args : J) :
    GoodRes (h.prepareExecutable path is64 cwd args) := by
  constructor
  · intro j hok
    simp only [Handler.prepareExecutable] at hok
    repeat' split at hok
    all_goals (simp at hok; try subst hok; try exact ⟨rfl, rfl⟩)
  · intro j hj
    simp only [Handler.prepareExecutable] at hj
    repeat' split at hj
    all_goals (simp at hj; try subst hj; try rfl)

/-- Outcome shape of `Handler.createProcess`: non-raising results are objects carrying
`status` or `type`, and so are all pushed notifications. -/
theorem goodRes_createProcess (h : Handler) :
    GoodRes (h.createProcess) := by
  constructor
  · intro j hok
    simp only [Handler.createProcess] at hok
    repeat' split at hok
    all_goals (simp at hok; try subst hok; try exact ⟨rfl, rfl⟩)
  · intro j hj
    simp only [Handler.createProcess] at hj
    repeat' split at hj
    all_goals (simp at hj; try subst hj; try rfl)

/-- Outcome shape of `Handler.attachToProcess`: non-raising results are objects carrying
`status` or `type`, and so are all pushed notifications. -/
theorem goodRes_attachToProcess (h : Handler) (pid : Nat) (exe : String) (is64 : J) :
    GoodRes (h.attachToProcess pid exe is64) := by
  constructor
  · intro j hok
    simp only [Handler.attachToProcess] at hok
    repeat' split at hok
    all_goals (simp at hok; try subst hok; try exact ⟨rfl, rfl⟩)
  · intro j hj
    simp only [Handler.attachToProcess] at hj
    repeat' split at hj
    all_goals (simp at hj; try subst hj; try rfl)

/-- Outcome shape of `Handler.moduleCount`: non-raising results are objects carrying
`status` or `type`, and so are all pushed notifications. -/
theorem goodRes_moduleCount (h : Handler) :
    GoodRes (h.moduleCount) := by
  constructor
  · intro j hok
    simp only [Handler.moduleCount] at hok
    repeat' split at hok
    all_goals (simp at hok; try subst hok; try exact ⟨rfl, rfl⟩)
  · intro j hj
    simp only [Handler.moduleCount] at hj
    repeat' split at hj
    all_goals (simp at hj; try subst hj; try rfl)

/-- Outcome shape of `Handler.moduleAtIndex`: non-raising results are objects carrying
`status` or `type`, and so are all pushed notifications. -/
theorem goodRes_moduleAtIndex (h : Handler) (index : Int) :
    GoodRes (h.moduleAtIndex index) := by
  constructor
  · intro j hok
    simp only [Handler.moduleAtIndex] at hok
    repeat' split at hok
    all_goals (simp at hok; try subst hok; try exact ⟨rfl, rfl⟩)
  · intro j hj
    simp only [Handler.moduleAtIndex] at hj
    repeat' split at hj
    all_goals (simp at hj; try subst hj; try rfl)

/-- Outcome shape of `Handler.moduleForFile`: non-raising results are objects carrying
`status` or `type`, and so are all pushed notifications. -/
theorem goodRes_moduleForFile (h : Handler) (f : String) :
    GoodRes (h.moduleForFile f) := by
  constructor
  · intro j hok
    simp only [Handler.moduleForFile] at hok
    repeat' split at hok
    all_goals (simp at hok; try subst hok; try exact ⟨rfl, rfl⟩)
  · intro j hj
    simp only [Handler.moduleForFile] at hj
    repeat' split at hj
    all_goals (simp at hj; try subst hj; try rfl)

/-- Outcome shape of `connectRemoteBody`: non-raising results are objects carrying
`status` or `type`, and so are all pushed notifications. -/
theorem goodRes_connectRemoteBody (h : Handler) (is64 : J) (plugin filename : String) :
    GoodRes (connectRemoteBody h is64 plugin filename) := by
  constructor
  · intro j hok
    simp only [connectRemoteBody] at hok
    repeat' split at hok
    all_goals (simp at hok; try subst hok; try exact ⟨rfl, rfl⟩)
  · intro j hj
    simp only [connectRemoteBody] at hj
    repeat' split at hj
    all_goals (simp at hj; try subst hj; try rfl)

/-- Outcome shape of `Handler.detach`: non-raising results are objects carrying
`status` or `type`, and so are all pushed notifications. -/
theorem goodRes_detach (h : Handler) :
    GoodRes (h.detach) := by
  constructor
  · intro j hok
    simp only [Handler.detach] at hok
    repeat' split at hok
    all_goals (simp at hok; try subst hok; try exact ⟨rfl, rfl⟩)
  · intro j hj
    simp only [Handler.detach] at hj
    repeat' split at hj
    all_goals (simp at hj; try subst hj; try rfl)

/-- Outcome shape of `Handler.deleteProcess`: non-raising results are objects carrying
`status` or `type`, and so are all pushed notifications. -/
theorem goodRes_deleteProcess (h : Handler) :
    GoodRes (h.deleteProcess) := by
  constructor
  · intro j hok
    simp only [Handler.deleteProcess] at hok
    repeat' split at hok
    all_goals (simp at hok; try subst hok; try exact ⟨rfl, rfl⟩)
  · intro j hj
    simp only [Handler.deleteProcess] at hj
    repeat' split at hj
    all_goals (simp at hj; try subst hj; try rfl)

/-- Outcome shape of `Handler.hasProcess`: non-raising results are objects carrying
`status` or `type`, and so are all pushed notifications. -/
theorem goodRes_hasProcess (h : Handler) :
    GoodRes (h.hasProcess) := by
  constructor
  · intro j hok
    simp only [Handler.hasProcess] at hok
    repeat' split at hok
    all_goals (simp at hok; try subst hok; try exact ⟨rfl, rfl⟩)
  · intro j hj
    simp only [Handler.hasProcess] at hj
    repeat' split at hj
    all_goals (simp at hj; try subst hj; try rfl)

/-- Outcome shape of `Handler.getProcessState`: non-raising results are objects carrying
`status` or `type`, and so are all pushed notifications. -/
theorem goodRes_getProcessState (h : Handler) :
    GoodRes (h.getProcessState) := by
  constructor
  · intro j hok
    simp only [Handler.getProcessState] at hok
    repeat' split at hok
    all_goals (simp at hok; try subst hok; try exact ⟨rfl, rfl⟩)
  · intro j hj
    simp only [Handler.getProcessState] at hj
    repeat' split at hj
    all_goals (simp at hj; try subst hj; try rfl)

/-- Outcome shape of `Handler.continueExecution`: non-raising results are objects carrying
`status` or `type`, and so are all pushed notifications. -/
theorem goodRes_continueExecution (h : Handler) :
    GoodRes (h.continueExecution) := by
  constructor
  · intro j hok
    simp only [Handler.continueExecution] at hok
    repeat' split at hok
    all_goals (simp at hok; try subst hok; try exact ⟨rfl, rfl⟩)
  · intro j hj
    simp only [Handler.continueExecution] at hj
    repeat' split at hj
    all_goals (simp at hj; try subst hj; try rfl)

/-- Outcome shape of `Handler.breakExecution`: non-raising results are objects carrying
`status` or `type`, and so are all pushed notifications. -/
theorem goodRes_breakExecution (h : Handler) :
    GoodRes (h.breakExecution) := by
  constructor
  · intro j hok
    simp only [Handler.breakExecution] at hok
    repeat' split at hok
    all_goals (simp at hok; try subst hok; try exact ⟨rfl, rfl⟩)
  · intro j hj
    simp only [Handler.breakExecution] at hj
    repeat' split at hj
    all_goals (simp at hj; try subst hj; try rfl)

/-- Outcome shape of `Handler.stopExecution`: non-raising results are objects carrying
`status` or `type`, and so are all pushed notifications. -/
theorem goodRes_stopExecution (h : Handler) :
    GoodRes (h.stopExecution) := by
  constructor
  · intro j hok
    simp only [Handler.stopExecution] at hok
    repeat' split at hok
    all_goals (simp at hok; try subst hok; try exact ⟨rfl, rfl⟩)
  · intro j hj
    simp only [Handler.stopExecution] at hj
    repeat' split at hj
    all_goals (simp at hj; try subst hj; try rfl)

/-- Outcome shape of `Handler.forceStopAndReport`: non-raising results are objects carrying
`status` or `type`, and so are all pushed notifications. -/
theorem goodRes_forceStopAndReport (h : Handler) :
    GoodRes (h.forceStopAndReport) := by
  constructor
  · intro j hok
    simp only [Handler.forceStopAndReport] at hok
    repeat' split at hok
    all_goals (simp at hok; try subst hok; try exact ⟨rfl, rfl⟩)
  · intro j hj
    simp only [Handler.forceStopAndReport] at hj
    repeat' split at hj
    all_goals (simp at hj; try subst hj; try rfl)

/-- Outcome shape of `Handler.getThreadIDList`: non-raising results are objects carrying
`status` or `type`, and so are all pushed notifications. -/
theorem goodRes_getThreadIDList (h : Handler) :
    GoodRes (h.getThreadIDList) := by
  constructor
  · intro j hok
    simp only [Handler.getThreadIDList] at hok
    repeat' split at hok
    all_goals (simp at hok; try subst hok; try exact ⟨rfl, rfl⟩)
  · intro j hj
    simp only [Handler.getThreadIDList] at hj
    repeat' split at hj
    all_goals (simp at hj; try subst hj; try rfl)

/-- Outcome shape of `Handler.selectThreadID`: non-raising results are objects carrying
`status` or `type`, and so are all pushed notifications. -/
theorem goodRes_selectThreadID (h : Handler) (tid : Nat) :
    GoodRes (h.selectThreadID tid) := by
  constructor
  · intro j hok
    simp only [Handler.selectThreadID] at hok
    repeat' split at hok
    all_goals (simp at hok; try subst hok; try exact ⟨rfl, rfl⟩)
  · intro j hj
    simp only [Handler.selectThreadID] at hj
    repeat' split at hj
    all_goals (simp at hj; try subst hj; try rfl)

/-- Outcome shape of `Handler.getRegisters`: non-raising results are objects carrying
`status` or `type`, and so are all pushed notifications. -/
theorem goodRes_getRegisters (h : Handler) :
    GoodRes (h.getRegisters) := by
  constructor
  · intro j hok
    simp only [Handler.getRegisters] at hok
    repeat' split at hok
    all_goals (simp at hok; try subst hok; try exact ⟨rfl, rfl⟩)
  · intro j hj
    simp only [Handler.getRegisters] at hj
    repeat' split at hj
    all_goals (simp at hj; try subst hj; try rfl)

/-- Outcome shape of `Handler.setBreakpointAtVirtualAddress`: non-raising results are objects carrying
`status` or `type`, and so are all pushed notifications. -/
theorem goodRes_setBreakpointAtVirtualAddress (h : Handler) (addr : Int) :
    GoodRes (h.setBreakpointAtVirtualAddress addr) := by
  constructor
  · intro j hok
    simp only [Handler.setBreakpointAtVirtualAddress] at hok
    repeat' split at hok
    all_goals (simp at hok; try subst hok; try exact ⟨rfl, rfl⟩)
  · intro j hj
    simp only [Handler.setBreakpointAtVirtualAddress] at hj
    repeat' split at hj
    all_goals (simp at hj; try subst hj; try rfl)

/-- Outcome shape of `Handler.removeBreakpoint`: non-raising results are objects carrying
`status` or `type`, and so are all pushed notifications. -/
theorem goodRes_removeBreakpoint (h : Handler) (b : Int) :
    GoodRes (h.removeBreakpoint b) := by
  constructor
  · intro j hok
    simp only [Handler.removeBreakpoint] at hok
    repeat' split at hok
    all_goals (simp at hok; try subst hok; try exact ⟨rfl, rfl⟩)
  · intro j hj
    simp only [Handler.removeBreakpoint] at hj
    repeat' split at hj
    all_goals (simp at hj; try subst hj; try rfl)

/-- Outcome shape of `Handler.removeAllBreakpoints`: non-raising results are objects carrying
`status` or `type`, and so are all pushed notifications. -/
theorem goodRes_removeAllBreakpoints (h : Handler) :
    GoodRes (h.removeAllBreakpoints) := by
  constructor
  · intro j hok
    simp only [Handler.removeAllBreakpoints] at hok
    repeat' split at hok
    all_goals (simp at hok; try subst hok; try exact ⟨rfl, rfl⟩)
  · intro j hj
    simp only [Handler.removeAllBreakpoints] at hj
    repeat' split at hj
    all_goals (simp at hj; try subst hj; try rfl)

/-- Outcome shape of `Handler.stepInstruction`: non-raising results are objects carrying
`status` or `type`, and so are all pushed notifications. -/
theorem goodRes_stepInstruction (h : Handler) :
    GoodRes (h.stepInstruction) := by
  constructor
  · intro j hok
    simp only [Handler.stepInstruction] at hok
    repeat' split at hok
    all_goals (simp at hok; try subst hok; try exact ⟨rfl, rfl⟩)
  · intro j hj
    simp only [Handler.stepInstruction] at hj
    repeat' split at hj
    all_goals (simp at hj; try subst hj; try rfl)

/-- Outcome shape of `Handler.stepOver`: non-raising results are objects carrying
`status` or `type`, and so are all pushed notifications. -/
theorem goodRes_stepOver (h : Handler) :
    GoodRes (h.stepOver) := by
  constructor
  · intro j hok
    simp only [Handler.stepOver] at hok
    repeat' split at hok
    all_goals (simp at hok; try subst hok; try exact ⟨rfl, rfl⟩)
  · intro j hj
    simp only [Handler.stepOver] at hj
    repeat' split at hj
    all_goals (simp at hj; try subst hj; try rfl)

/-- Outcome shape of `Handler.stepOut`: non-raising results are objects carrying
`status` or `type`, and so are all pushed notifications. -/
theorem goodRes_stepOut (h : Handler) :
    GoodRes (h.stepOut) := by
  constructor
  · intro j hok
    simp only [Handler.stepOut] at hok
    repeat' split at hok
    all_goals (simp at hok; try subst hok; try exact ⟨rfl, rfl⟩)
  · intro j hj
    simp only [Handler.stepOut] at hj
    repeat' split at hj
    all_goals (simp at hj; try subst hj; try rfl)

/-- Outcome shape of `Handler.readMemory`: non-raising results are objects carrying
`status` or `type`, and so are all pushed notifications. -/
theorem goodRes_readMemory (h : Handler) (addr n : Int) :
    GoodRes (h.readMemory addr n) := by
  constructor
  · intro j hok
    simp only [Handler.readMemory] at hok
    repeat' split at hok
    all_goals (simp at hok; try subst hok; try exact ⟨rfl, rfl⟩)
  · intro j hj
    simp only [Handler.readMemory] at hj
    repeat' split at hj
    all_goals (simp at hj; try subst hj; try rfl)

/-- Outcome shape of `Handler.writeByte`: non-raising results are objects carrying
`status` or `type`, and so are all pushed notifications. -/
theorem goodRes_writeByte (h : Handler) (addr v : Int) :
    GoodRes (h.writeByte addr v) := by
  constructor
  · intro j hok
    simp only [Handler.writeByte] at hok
    repeat' split at hok
    all_goals (simp at hok; try subst hok; try exact ⟨rfl, rfl⟩)
  · intro j hj
    simp only [Handler.writeByte] at hj
    repeat' split at hj
    all_goals (simp at hj; try subst hj; try rfl)

/-- Outcome shape of `Handler.disassembly`: non-raising results are objects carrying
`status` or `type`, and so are all pushed notifications. -/
theorem goodRes_disassembly (h : Handler) (a c2 : Int) :
    GoodRes (h.disassembly a c2) := by
  constructor
  · intro j hok
    simp only [Handler.disassembly] at hok
    repeat' split at hok
    all_goals (simp at hok; try subst hok; try exact ⟨rfl, rfl⟩)
  · intro j hj
    simp only [Handler.disassembly] at hj
    repeat' split at hj
    all_goals (simp at hj; try subst hj; try rfl)

/-- Outcome shape of `Handler.getMainExecutableDisassembly`: non-raising results are objects carrying
`status` or `type`, and so are all pushed notifications. -/
theorem goodRes_getMainExecutableDisassembly (h : Handler) (c2 : Int) :
    GoodRes (h.getMainExecutableDisassembly c2) := by
  constructor
  · intro j hok
    simp only [Handler.getMainExecutableDisassembly] at hok
    repeat' split at hok
    all_goals (simp at hok; try subst hok; try exact ⟨rfl, rfl⟩)
  · intro j hj
    simp only [Handler.getMainExecutableDisassembly] at hj
    repeat' split at hj
    all_goals (simp at hj; try subst hj; try rfl)

/-- Outcome shape of `Handler.findStringReferences`: non-raising results are objects carrying
`status` or `type`, and so are all pushed notifications. -/
theorem goodRes_findStringReferences (h : Handler) (sa : Int) :
    GoodRes (h.findStringReferences sa) := by
  constructor
  · intro j hok
    simp only [Handler.findStringReferences] at hok
    repeat' split at hok
    all_goals (simp at hok; try subst hok; try exact ⟨rfl, rfl⟩)
  · intro j hj
    simp only [Handler.findStringReferences] at hj
    repeat' split at hj
    all_goals (simp at hj; try subst hj; try rfl)

/-- Outcome shape of `Handler.getCallstack`: non-raising results are objects carrying
`status` or `type`, and so are all pushed notifications. -/
theorem goodRes_getCallstack (h : Handler) :
    GoodRes (h.getCallstack) := by
  constructor
  · intro j hok
    simp only [Handler.getCallstack] at hok
    repeat' split at hok
    all_goals (simp at hok; try subst hok; try exact ⟨rfl, rfl⟩)
  · intro j hj
    simp only [Handler.getCallstack] at hj
    repeat' split at hj
    all_goals (simp at hj; try subst hj; try rfl)

/-- Outcome shape of `Handler.selectFrame`: non-raising results are objects carrying
`status` or `type`, and so are all pushed notifications. -/
theorem goodRes_selectFrame (h : Handler) (i : Int) :
    GoodRes (h.selectFrame i) := by
  constructor
  · intro j hok
    simp only [Handler.selectFrame] at hok
    repeat' split at hok
    all_goals (simp at hok; try subst hok; try exact ⟨rfl, rfl⟩)
  · intro j hj
    simp only [Handler.selectFrame] at hj
    repeat' split at hj
    all_goals (simp at hj; try subst hj; try rfl)

/-- Outcome shape of `Handler.setRegister`: non-raising results are objects carrying
`status` or `type`, and so are all pushed notifications. -/
theorem goodRes_setRegister (h : Handler) (nm v : String) :
    GoodRes (h.setRegister nm v) := by
  constructor
  · intro j hok
    simp only [Handler.setRegister] at hok
    repeat' split at hok
    all_goals (simp at hok; try subst hok; try exact ⟨rfl, rfl⟩)
  · intro j hj
    simp only [Handler.setRegister] at hj
    repeat' split at hj
    all_goals (simp at hj; try subst hj; try rfl)

/-- Outcome shape of `Handler.executeCommand`: non-raising results are objects carrying
`status` or `type`, and so are all pushed notifications. -/
theorem goodRes_executeCommand (h : Handler) (cli : String) :
    GoodRes (h.executeCommand cli) := by
  constructor
  · intro j hok
    simp only [Handler.executeCommand] at hok
    repeat' split at hok
    all_goals (simp at hok; try subst hok; try exact ⟨rfl, rfl⟩)
  · intro j hj
    simp only [Handler.executeCommand] at hj
    repeat' split at hj
    all_goals (simp at hj; try subst hj; try rfl)

/-- Outcome shape of `Handler.completeCommand`: non-raising results are objects carrying
`status` or `type`, and so are all pushed notifications. -/
theorem goodRes_completeCommand (h : Handler) (cli : String) (pos : Int) :
    GoodRes (h.completeCommand cli pos) := by
  constructor
  · intro j hok
    simp only [Handler.completeCommand] at hok
    repeat' split at hok
    all_goals (simp at hok; try subst hok; try exact ⟨rfl, rfl⟩)
  · intro j hj
    simp only [Handler.completeCommand] at hj
    repeat' split at hj
    all_goals (simp at hj; try subst hj; try rfl)

/-- Outcome shape of `Handler.sendToApplication`: non-raising results are objects carrying
`status` or `type`, and so are all pushed notifications. -/
theorem goodRes_sendToApplication (h : Handler) (data : J) :
    GoodRes (h.sendToApplication data) := by
  constructor
  · intro j hok
    simp only [Handler.sendToApplication] at hok
    repeat' split at hok
    all_goals (simp at hok; try subst hok; try exact ⟨rfl, rfl⟩)
  · intro j hj
    simp only [Handler.sendToApplication] at hj
    repeat' split at hj
    all_goals (simp at hj; try subst hj; try rfl)

/-- Outcome shape of `Handler.connectRemote`. -/
theorem goodRes_connectRemote (h : Handler) (is64 : J) (url plugin : String)
    (plat : J) (file : String) :
    GoodRes (h.connectRemote is64 url plugin plat file) := by
  unfold Handler.connectRemote
  repeat' split
  all_goals first
    | exact goodRes_tuple_ok _ _ rfl rfl
    | apply goodRes_connectRemoteBody


/-- Every dispatched command branch is well-shaped. -/
theorem goodRes_dispatchCommand (h : Handler) (req : J) (c : String) :
    GoodRes (dispatchCommand h req c) := by
  unfold dispatchCommand
  by_cases hc0 : c = "ping"
  · simp only [if_pos hc0]
    exact goodRes_tuple_ok _ _ rfl rfl
  simp only [if_neg hc0]
  by_cases hc1 : c = "prepareExecutable"
  · simp only [if_pos hc1]
    apply goodRes_runArgs
    intro r hr
    simp only [bind, Except.bind, pure, Except.pure] at hr
    repeat' split at hr
    all_goals (simp at hr; try subst hr)
    all_goals apply goodRes_prepareExecutable
  simp only [if_neg hc1]
  by_cases hc2 : c = "createProcess"
  · simp only [if_pos hc2]
    apply goodRes_createProcess
  simp only [if_neg hc2]
  by_cases hc3 : c = "attachToProcess"
  · simp only [if_pos hc3]
    apply goodRes_runArgs
    intro r hr
    simp only [bind, Except.bind, pure, Except.pure] at hr
    repeat' split at hr
    all_goals (simp at hr; try subst hr)
    all_goals apply goodRes_attachToProcess
  simp only [if_neg hc3]
  by_cases hc4 : c = "detach"
  · simp only [if_pos hc4]
    apply goodRes_detach
  simp only [if_neg hc4]
  by_cases hc5 : c = "deleteProcess"
  · simp only [if_pos hc5]
    apply goodRes_deleteProcess
  simp only [if_neg hc5]
  by_cases hc6 : c = "hasProcess"
  · simp only [if_pos hc6]
    apply goodRes_hasProcess
  simp only [if_neg hc6]
  by_cases hc7 : c = "getProcessState"
  · simp only [if_pos hc7]
    apply goodRes_getProcessState
  simp only [if_neg hc7]
  by_cases hc8 : c = "continueExecution"
  · simp only [if_pos hc8]
    apply goodRes_continueExecution
  simp only [if_neg hc8]
  by_cases hc9 : c = "stopExecution"
  · simp only [if_pos hc9]
    apply goodRes_stopExecution
  simp only [if_neg hc9]
  by_cases hc10 : c = "breakExecution"
  · simp only [if_pos hc10]
    apply goodRes_breakExecution
  simp only [if_neg hc10]
  by_cases hc11 : c = "forceStopAndReport"
  · simp only [if_pos hc11]
    apply goodRes_forceStopAndReport
  simp only [if_neg hc11]
  by_cases hc12 : c = "getThreadIDList"
  · simp only [if_pos hc12]
    apply goodRes_getThreadIDList
  simp only [if_neg hc12]
  by_cases hc13 : c = "selectThreadID"
  · simp only [if_pos hc13]
    apply goodRes_runArgs
    intro r hr
    simp only [bind, Except.bind, pure, Except.pure] at hr
    repeat' split at hr
    all_goals (simp at hr; try subst hr)
    all_goals apply goodRes_selectThreadID
  simp only [if_neg hc13]
  by_cases hc14 : c = "getRegisters"
  · simp only [if_pos hc14]
    apply goodRes_getRegisters
  simp only [if_neg hc14]
  by_cases hc15 : c = "disassembly"
  · simp only [if_pos hc15]
    apply goodRes_runArgs
    intro r hr
    simp only [bind, Except.bind, pure, Except.pure] at hr
    repeat' split at hr
    all_goals (simp at hr; try subst hr)
    all_goals apply goodRes_disassembly
  simp only [if_neg hc15]
  by_cases hc16 : c = "getMainExecutableDisassembly"
  · simp only [if_pos hc16]
    apply goodRes_runArgs
    intro r hr
    simp only [bind, Except.bind, pure, Except.pure] at hr
    repeat' split at hr
    all_goals (simp at hr; try subst hr)
    all_goals apply goodRes_getMainExecutableDisassembly
  simp only [if_neg hc16]
  by_cases hc17 : c = "findStringReferences"
  · simp only [if_pos hc17]
    apply goodRes_runArgs
    intro r hr
    simp only [bind, Except.bind, pure, Except.pure] at hr
    repeat' split at hr
    all_goals (simp at hr; try subst hr)
    all_goals apply goodRes_findStringReferences
  simp only [if_neg hc17]
  by_cases hc18 : c = "setBreakpointAtVirtualAddress"
  · simp only [if_pos hc18]
    apply goodRes_runArgs
    intro r hr
    simp only [bind, Except.bind, pure, Except.pure] at hr
    repeat' split at hr
    all_goals (simp at hr; try subst hr)
    all_goals apply goodRes_setBreakpointAtVirtualAddress
  simp only [if_neg hc18]
  by_cases hc19 : c = "removeBreakpoint"
  · simp only [if_pos hc19]
    apply goodRes_runArgs
    intro r hr
    simp only [bind, Except.bind, pure, Except.pure] at hr
    repeat' split at hr
    all_goals (simp at hr; try subst hr)
    all_goals apply goodRes_removeBreakpoint
  simp only [if_neg hc19]
  by_cases hc20 : c = "removeAllBreakpoints"
  · simp only [if_pos hc20]
    apply goodRes_removeAllBreakpoints
  simp only [if_neg hc20]
  by_cases hc21 : c = "stepInstruction"
  · simp only [if_pos hc21]
    apply goodRes_stepInstruction
  simp only [if_neg hc21]
  by_cases hc22 : c = "stepOver"
  · simp only [if_pos hc22]
    apply goodRes_stepOver
  simp only [if_neg hc22]
  by_cases hc23 : c = "stepOut"
  · simp only [if_pos hc23]
    apply goodRes_stepOut
  simp only [if_neg hc23]
  by_cases hc24 : c = "readMemory"
  · simp only [if_pos hc24]
    apply goodRes_runArgs
    intro r hr
    simp only [bind, Except.bind, pure, Except.pure] at hr
    repeat' split at hr
    all_goals (simp at hr; try subst hr)
    all_goals apply goodRes_readMemory
  simp only [if_neg hc24]
  by_cases hc25 : c = "writeByte"
  · simp only [if_pos hc25]
    apply goodRes_runArgs
    intro r hr
    simp only [bind, Except.bind, pure, Except.pure] at hr
    repeat' split at hr
    all_goals (simp at hr; try subst hr)
    all_goals apply goodRes_writeByte
  simp only [if_neg hc25]
  by_cases hc26 : c = "getCallstack"
  · simp only [if_pos hc26]
    apply goodRes_getCallstack
  simp only [if_neg hc26]
  by_cases hc27 : c = "selectFrame"
  · simp only [if_pos hc27]
    apply goodRes_runArgs
    intro r hr
    simp only [bind, Except.bind, pure, Except.pure] at hr
    repeat' split at hr
    all_goals (simp at hr; try subst hr)
    all_goals apply goodRes_selectFrame
  simp only [if_neg hc27]
  by_cases hc28 : c = "setRegister"
  · simp only [if_pos hc28]
    apply goodRes_runArgs
    intro r hr
    simp only [bind, Except.bind, pure, Except.pure] at hr
    repeat' split at hr
    all_goals (simp at hr; try subst hr)
    all_goals apply goodRes_setRegister
  simp only [if_neg hc28]
  by_cases hc29 : c = "executeCommand"
  · simp only [if_pos hc29]
    apply goodRes_runArgs
    intro r hr
    simp only [bind, Except.bind, pure, Except.pure] at hr
    repeat' split at hr
    all_goals (simp at hr; try subst hr)
    all_goals apply goodRes_executeCommand
  simp only [if_neg hc29]
  by_cases hc30 : c = "completeCommand"
  · simp only [if_pos hc30]
    apply goodRes_runArgs
    intro r hr
    simp only [bind, Except.bind, pure, Except.pure] at hr
    repeat' split at hr
    all_goals (simp at hr; try subst hr)
    all_goals apply goodRes_completeCommand
  simp only [if_neg hc30]
  by_cases hc31 : c = "sendToApplication"
  · simp only [if_pos hc31]
    apply goodRes_runArgs
    intro r hr
    simp only [bind, Except.bind, pure, Except.pure] at hr
    repeat' split at hr
    all_goals (simp at hr; try subst hr)
    all_goals apply goodRes_sendToApplication
  simp only [if_neg hc31]
  by_cases hc32 : c = "moduleCount"
  · simp only [if_pos hc32]
    apply goodRes_moduleCount
  simp only [if_neg hc32]
  by_cases hc33 : c = "moduleAtIndex"
  · simp only [if_pos hc33]
    apply goodRes_runArgs
    intro r hr
    simp only [bind, Except.bind, pure, Except.pure] at hr
    repeat' split at hr
    all_goals (simp at hr; try subst hr)
    all_goals apply goodRes_moduleAtIndex
  simp only [if_neg hc33]
  by_cases hc34 : c = "moduleForFile"
  · simp only [if_pos hc34]
    apply goodRes_runArgs
    intro r hr
    simp only [bind, Except.bind, pure, Except.pure] at hr
    repeat' split at hr
    all_goals (simp at hr; try subst hr)
    all_goals apply goodRes_moduleForFile
  simp only [if_neg hc34]
  by_cases hc35 : c = "connectRemote"
  · simp only [if_pos hc35]
    apply goodRes_runArgs
    intro r hr
    simp only [bind, Except.bind, pure, Except.pure] at hr
    repeat' split at hr
    all_goals (simp at hr; try subst hr)
    all_goals apply goodRes_connectRemote
  simp only [if_neg hc35]
  exact goodRes_tuple_ok _ _ rfl rfl

/-- Every dispatch outcome is well-shaped: non-raising results and all
notifications are objects carrying `status` or `type`. -/
theorem goodRes_handleRequest (h : Handler) (req : J) :
    GoodRes (handleRequest h req) := by
  unfold handleRequest
  repeat' split
  all_goals first
    | exact goodRes_tuple_err _ _
    | apply goodRes_dispatchCommand

/-- Filtering away another key does not change a lookup. -/
theorem lookup_filter_ne (fs : List (String × J)) (k key : String)
    (hne : key ≠ k) :
    J.lookup (fs.filter (fun p => p.1 ≠ k)) key = J.lookup fs key := by
  induction fs with
  | nil => rfl
  | cons a r ih =>
    obtain ⟨a1, a2⟩ := a
    by_cases ha : a1 = k
    · have hak : ¬ a1 = key := by rw [ha]; exact fun hcon => hne hcon.symm
      have h1 : (((a1, a2) :: r).filter (fun p => p.1 ≠ k)) =
          r.filter (fun p => p.1 ≠ k) := by
        simp [List.filter_cons, ha]
      rw [h1, ih]
      simp [J.lookup, hak]
    · have h1 : (((a1, a2) :: r).filter (fun p => p.1 ≠ k)) =
          (a1, a2) :: r.filter (fun p => p.1 ≠ k) := by
        simp [List.filter_cons, ha]
      rw [h1]
      by_cases hak : a1 = key
      · simp [J.lookup, hak]
      · simp only [J.lookup, if_neg hak]
        exact ih

/-- Setting the `id` field preserves the `status`/`type` field presence. -/
theorem statusOrType_setField (j v : J) (hst : statusOrType j = true) :
    statusOrType (j.setField "id" v) = true := by
  cases j with
  | obj fs =>
    simp only [statusOrType, J.setField, J.hasField, J.getField,
      J.lookup] at hst ⊢
    rw [if_neg (by decide), if_neg (by decide),
      lookup_filter_ne fs "id" "status" (by decide),
      lookup_filter_ne fs "id" "type" (by decide)]
    exact hst
  | null => exact hst
  | bool b => exact hst
  | num n => exact hst
  | str s => exact hst
  | arr l => exact hst

/-- Setting the `id` field on an object makes it readable back. -/
theorem getField_setField_id (j v : J) (hobj : j.isObj = true) :
    (j.setField "id" v).getField "id" = some v := by
  cases j <;> simp_all [J.isObj, J.setField, J.getField, J.lookup]

/-- The run-loop reply before id propagation is a well-shaped object. -/
theorem dispatchResult_shape (h : Handler) (req : J) :
    (dispatchResult h req).isObj = true ∧
    statusOrType (dispatchResult h req) = true := by
  have hg := goodRes_handleRequest h req
  unfold dispatchResult
  rcases hok : (handleRequest h req).2.2 with e | j
  · simp only [hok]
    exact ⟨rfl, rfl⟩
  · simp only [hok]
    exact hg.1 j hok

/-- On an object request, id propagation never raises: it returns the
result with the caller's id copied in when present. -/
theorem pyAttachId_obj (fs : List (String × J)) (result : J) :
    pyAttachId (J.obj fs) result =
      .ok (match J.lookup fs "id" with
           | some v => result.setField "id" v
           | none => result) := by
  unfold pyAttachId pyHasId pyIndexId
  cases hlk : J.lookup fs "id" <;>
    simp [hlk, bind, Except.bind, pure, Except.pure]

/-- Claim C8, amended: every message the server emits — the per-command
reply (with or without the propagated id), every notification pushed
during handling, and every event-thread message — carries a `status`
field or a `type` field; the classes are however not disjoint (see the
counterexample theorem for the ambiguity). -/
theorem every_emitted_message_has_status_or_type (h : Handler) (req m : J)
    (hm : m = dispatchResult h req
       ∨ m ∈ (handleRequest h req).2.1
       ∨ (∃ r, pyAttachId req (dispatchResult h req) = .ok r ∧ m = r)
       ∨ EventThreadMessage m) :
    statusOrType m = true := by
  have hg := goodRes_handleRequest h req
  rcases hm with rfl | hmem | ⟨r, hr, hmr⟩ | hev
  · exact (dispatchResult_shape h req).2
  · exact hg.2 m hmem
  · subst hmr
    cases req with
    | obj fs =>
      rw [pyAttachId_obj] at hr
      rcases hlk : J.lookup fs "id" with _ | v <;> rw [hlk] at hr
      · cases hr
        exact (dispatchResult_shape h (J.obj fs)).2
      · cases hr
        exact statusOrType_setField _ _ (dispatchResult_shape h (J.obj fs)).2
    | null =>
      exact absurd hr (by simp [pyAttachId, pyHasId, bind, Except.bind])
    | bool b =>
      exact absurd hr (by simp [pyAttachId, pyHasId, bind, Except.bind])
    | num n =>
      exact absurd hr (by simp [pyAttachId, pyHasId, bind, Except.bind])
    | str s =>
      by_cases hc : strContains s "id"
      · exact absurd hr (by simp [pyAttachId, pyHasId, pyIndexId, hc, bind,
          Except.bind, pure, Except.pure])
      · have : m = dispatchResult h (J.str s) := by
          simp [pyAttachId, pyHasId, pyIndexId, hc, bind, Except.bind, pure,
            Except.pure] at hr
          exact hr.symm
        rw [this]
        exact (dispatchResult_shape h (J.str s)).2
    | arr l =>
      by_cases hc : l.any (fun x => match x with | J.str s => s = "id" | _ => false)
      · exact absurd hr (by simp [pyAttachId, pyHasId, pyIndexId, hc, bind,
          Except.bind, pure, Except.pure])
      · have : m = dispatchResult h (J.arr l) := by
          simp [pyAttachId, pyHasId, pyIndexId, hc, bind, Except.bind, pure,
            Except.pure] at hr
          exact hr.symm
        rw [this]
        exact (dispatchResult_shape h (J.arr l)).2
  · cases hev <;> rfl

/-- Witness for the amended C8: the reply to a ping on the fresh session
carries a `status` or `type` field. -/
theorem every_emitted_message_has_status_or_type_witness :
    statusOrType (dispatchResult handler0 (cmdReq "ping" [])) = true :=
  every_emitted_message_has_status_or_type handler0 (cmdReq "ping" []) _
    (Or.inl rfl)

/-- `repliesOf` distributes over concatenation. -/
theorem repliesOf_append (a b : List TraceItem) :
    repliesOf (a ++ b) = repliesOf a ++ repliesOf b := by
  induction a with
  | nil => rfl
  | cons x r ih => cases x <;> simp [repliesOf, ih]

/-- Notifications contribute no replies. -/
theorem repliesOf_map_note (l : List J) :
    repliesOf (l.map TraceItem.note) = [] := by
  induction l with
  | nil => rfl
  | cons x r ih => simpa [repliesOf] using ih

/-- The dispatch loop on a decoded object command: the notifications are
emitted, then exactly one reply — the dispatch result with the caller's
id copied in when present — and the loop continues in the updated
session. -/
theorem runLoop_cons_obj (h : Handler) (fs : List (String × J))
    (rest : List (Option J)) :
    runLoop h (some (J.obj fs) :: rest) =
      (handleRequest h (J.obj fs)).2.1.map TraceItem.note ++
        (TraceItem.reply (match J.lookup fs "id" with
          | some v => (dispatchResult h (J.obj fs)).setField "id" v
          | none => dispatchResult h (J.obj fs)) ::
         runLoop (handleRequest h (J.obj fs)).1 rest) := by
  cases hlk : J.lookup fs "id" <;>
    simp [runLoop, pyAttachId_obj, dispatchResult, hlk]

/-- Claim C2: for every decoded command message (a JSON object — the
spec's command messages always carry a `command` field, hence are
objects; `none` stands for an undecodable document, which is answered
too), the dispatch loop sends exactly one reply; the i-th reply answers
the i-th message, so N back-to-back commands yield N replies in
submission order; and a caller-supplied `id` is copied verbatim into the
corresponding reply. -/
theorem run_one_reply_per_command (h : Handler) (inputs : List (Option J))
    (hobj : ∀ x ∈ inputs, ∀ j, x = some j → ∃ fs, j = J.obj fs) :
    (repliesOf (runLoop h inputs)).length = inputs.length ∧
    (∀ (i : Nat) (fs : List (String × J)) (v : J),
      inputs.get? i = some (some (J.obj fs)) → J.lookup fs "id" = some v →
      ∃ r, (repliesOf (runLoop h inputs)).get? i = some r ∧
        r.getField "id" = some v) := by
  induction inputs generalizing h with
  | nil =>
    refine ⟨rfl, ?_⟩
    intro i fs v hget
    simp at hget
  | cons x rest ih =>
    have hobjRest : ∀ y ∈ rest, ∀ j, y = some j → ∃ gs, j = J.obj gs :=
      fun y hy => hobj y (List.mem_cons_of_mem _ hy)
    cases x with
    | none =>
      have hloop : runLoop h (none :: rest) =
          TraceItem.reply (buildError "cannot decode JSON") :: runLoop h rest :=
        rfl
      obtain ⟨ihlen, ihid⟩ := ih h hobjRest
      constructor
      · simp [hloop, repliesOf, ihlen]
      · intro i fs v hget hid
        cases i with
        | zero => simp at hget
        | succ i2 =>
          simp only [List.get?] at hget
          obtain ⟨r, hr1, hr2⟩ := ihid i2 fs v hget hid
          exact ⟨r, by simpa [hloop, repliesOf] using hr1, hr2⟩
    | some req =>
      obtain ⟨fs0, rfl⟩ :=
        hobj (some req) (List.mem_cons_self _ _) req rfl
      obtain ⟨ihlen, ihid⟩ := ih (handleRequest h (J.obj fs0)).1 hobjRest
      have hrep : repliesOf (runLoop h (some (J.obj fs0) :: rest)) =
          (match J.lookup fs0 "id" with
            | some v => (dispatchResult h (J.obj fs0)).setField "id" v
            | none => dispatchResult h (J.obj fs0)) ::
          repliesOf (runLoop (handleRequest h (J.obj fs0)).1 rest) := by
        rw [runLoop_cons_obj, repliesOf_append, repliesOf_map_note]
        rfl
      constructor
      · simp [hrep, ihlen]
      · intro i fs v hget hid
        cases i with
        | zero =>
          simp only [List.get?, Option.some.injEq] at hget
          have hfs : fs = fs0 := by
            cases hget
            rfl
          subst hfs
          refine ⟨(dispatchResult h (J.obj fs)).setField "id" v, ?_, ?_⟩
          · simp [hrep, hid]
          · exact getField_setField_id _ _ (dispatchResult_shape h (J.obj fs)).1
        | succ i2 =>
          simp only [List.get?] at hget
          obtain ⟨r, hr1, hr2⟩ := ihid i2 fs v hget hid
          exact ⟨r, by simpa [hrep] using hr1, hr2⟩

/-- Witness for C2: one ping command carrying id 7 yields exactly one
reply, and that reply carries id 7. -/
theorem run_one_reply_per_command_witness :
    (repliesOf (runLoop handler0
        [some (J.obj [("command", J.str "ping"), ("id", J.num 7)])])).length
      = 1 ∧
    ∃ r, (repliesOf (runLoop handler0
        [some (J.obj [("command", J.str "ping"), ("id", J.num 7)])])).get? 0
        = some r ∧ r.getField "id" = some (J.num 7) := by
  have hobj : ∀ x ∈ [some (J.obj [("command", J.str "ping"),
      ("id", J.num 7)])], ∀ j, x = some j → ∃ fs, j = J.obj fs := by
    intro x hx j hj
    simp only [List.mem_singleton] at hx
    subst hx
    injection hj with hj2
    exact ⟨_, hj2.symm⟩
  have hmain := run_one_reply_per_command handler0
    [some (J.obj [("command", J.str "ping"), ("id", J.num 7)])] hobj
  exact ⟨hmain.1, hmain.2 0 [("command", J.str "ping"), ("id", J.num 7)]
    (J.num 7) rfl rfl⟩

/-- One `read` call delivers a prefix of the remaining bytes. -/
theorem fdRead_flat (s : ByteStream) (n : Nat) :
    (fdRead s n).1 ++ flatBytes (fdRead s n).2 = flatBytes s := by
  cases s with
  | nil => rfl
  | cons c rest =>
    by_cases hc : c.length ≤ n
    · simp [fdRead, hc, flatBytes]
    · simp only [fdRead, hc, if_false, flatBytes, List.flatten_cons]
      rw [← List.append_assoc, List.take_append_drop]

/-- One `read n` call delivers at most `n` bytes. -/
theorem fdRead_len_le (s : ByteStream) (n : Nat) :
    (fdRead s n).1.length ≤ n := by
  cases s with
  | nil => simp [fdRead]
  | cons c rest =>
    by_cases hc : c.length ≤ n <;> simp [fdRead, hc]

/-- The payload loop delivers exactly the requested byte count, split off
the front of the stream. -/
theorem readPayload_spec : ∀ (s : ByteStream) (n : Nat) (msg : Chunk)
    (s1 : ByteStream), readPayload s n = some (msg, s1) →
    msg.length = n ∧ flatBytes s = msg ++ flatBytes s1 := by
  intro s
  induction s with
  | nil =>
    intro n msg s1 hrp
    match n with
    | 0 =>
      cases hrp
      exact ⟨rfl, rfl⟩
    | _ + 1 => cases hrp
  | cons c rest ih =>
    intro n msg s1 hrp
    match n with
    | 0 =>
      cases hrp
      exact ⟨rfl, rfl⟩
    | n2 + 1 =>
      unfold readPayload at hrp
      by_cases hce : c.isEmpty
      · simp [hce] at hrp
      · by_cases hcl : c.length ≤ n2 + 1
        · simp only [hce, hcl, if_true, if_false, Bool.false_eq_true] at hrp
          cases hrec : readPayload rest (n2 + 1 - c.length) with
          | none => rw [hrec] at hrp; cases hrp
          | some p =>
            obtain ⟨m2, s2⟩ := p
            rw [hrec] at hrp
            simp only [Option.some.injEq, Prod.mk.injEq] at hrp
            obtain ⟨hmsg, hs1⟩ := hrp
            subst hmsg
            subst hs1
            obtain ⟨hl, hf⟩ := ih (n2 + 1 - c.length) m2 s2 hrec
            constructor
            · simp only [List.length_append, hl]
              omega
            · simp only [flatBytes, List.flatten_cons] at hf ⊢
              rw [hf, List.append_assoc]
        · simp only [hce, hcl, if_true, if_false, Bool.false_eq_true] at hrp
          simp only [Option.some.injEq, Prod.mk.injEq] at hrp
          obtain ⟨hmsg, hs1⟩ := hrp
          subst hmsg
          subst hs1
          constructor
          · simp only [List.length_take]
            omega
          · simp only [flatBytes, List.flatten_cons]
            rw [← List.append_assoc, List.take_append_drop]

/-- A stream with fewer bytes than requested makes the payload loop
report closure. -/
theorem readPayload_short : ∀ (s : ByteStream) (n : Nat),
    (flatBytes s).length < n → readPayload s n = none := by
  intro s
  induction s with
  | nil =>
    intro n hn
    match n with
    | 0 => simp at hn
    | _ + 1 => rfl
  | cons c rest ih =>
    intro n hn
    have hflat : flatBytes (c :: rest) = c ++ flatBytes rest := by
      simp [flatBytes]
    match n with
    | 0 => simp at hn
    | n2 + 1 =>
      unfold readPayload
      by_cases hce : c.isEmpty
      · simp [hce]
      · by_cases hcl : c.length ≤ n2 + 1
        · simp only [hce, hcl, if_true, if_false, Bool.false_eq_true]
          have hshort : (flatBytes rest).length < n2 + 1 - c.length := by
            rw [hflat] at hn
            simp only [List.length_append] at hn
            omega
          rw [ih _ hshort]
        · exfalso
          rw [hflat] at hn
          simp only [List.length_append] at hn
          omega

/-- A successful binary-mode read delivers exactly the byte count
declared in the 4-byte header, splitting the stream with no partial
leftovers. -/
theorem transportRead_spec (s : ByteStream) (msg : Chunk) (s1 : ByteStream)
    (h : transportRead s = some (msg, s1)) :
    0 ≤ decI32 ((flatBytes s).take 4) ∧
    msg.length = (decI32 ((flatBytes s).take 4)).toNat ∧
    flatBytes s = (flatBytes s).take 4 ++ msg ++ flatBytes s1 := by
  unfold transportRead at h
  rcases hfd : fdRead s 4 with ⟨hdr, s2⟩
  rw [hfd] at h
  by_cases h4 : hdr.length < 4
  · simp [h4] at h
  · have hle : hdr.length ≤ 4 := by
      have := fdRead_len_le s 4
      rw [hfd] at this
      exact this
    have hlen4 : hdr.length = 4 := by omega
    have hflat : hdr ++ flatBytes s2 = flatBytes s := by
      have := fdRead_flat s 4
      rw [hfd] at this
      exact this
    have htake : (flatBytes s).take 4 = hdr := by
      rw [← hflat, ← hlen4, List.take_left]
    by_cases hneg : decI32 hdr < 0
    · simp [h4, hneg] at h
    · simp only [h4, hneg, if_false, if_true] at h
      obtain ⟨hml, hmf⟩ := readPayload_spec s2 _ msg s1 h
      refine ⟨?_, ?_, ?_⟩
      · rw [htake]; omega
      · rw [htake]; exact hml
      · rw [htake, ← hflat, hmf, List.append_assoc]

/-- A stream delivering fewer payload bytes than the declared length
makes the binary-mode read report closure. -/
theorem transportRead_truncated (s : ByteStream) (len : Int)
    (hlen : 0 ≤ len) (hdec : decI32 ((flatBytes s).take 4) = len)
    (hshort : (flatBytes s).length < 4 + len.toNat) :
    transportRead s = none := by
  unfold transportRead
  rcases hfd : fdRead s 4 with ⟨hdr, s2⟩
  by_cases h4 : hdr.length < 4
  · simp [h4]
  · have hle : hdr.length ≤ 4 := by
      have := fdRead_len_le s 4
      rw [hfd] at this
      exact this
    have hlen4 : hdr.length = 4 := by omega
    have hflat : hdr ++ flatBytes s2 = flatBytes s := by
      have := fdRead_flat s 4
      rw [hfd] at this
      exact this
    have htake : (flatBytes s).take 4 = hdr := by
      rw [← hflat, ← hlen4, List.take_left]
    rw [htake] at hdec
    have hneg : ¬ decI32 hdr < 0 := by rw [hdec]; omega
    simp only [h4, hneg, if_false, if_true]
    rw [hdec]
    apply readPayload_short
    have : (flatBytes s).length = 4 + (flatBytes s2).length := by
      rw [← hflat]
      simp [hlen4]
    omega

/-- Claim C7: in binary mode, a short read or EOF at the header or
payload stage is reported as stream closure (and the dispatch loop then
terminates, delivering nothing), never as a partial message; and every
successfully delivered message consists of exactly the declared number of
payload bytes, consumed exactly from the stream. -/
theorem binary_framing_complete_or_closed (s : ByteStream) (msg : Chunk)
    (s1 : ByteStream) (len : Int) :
    (transportRead s = some (msg, s1) →
       0 ≤ decI32 ((flatBytes s).take 4) ∧
       msg.length = (decI32 ((flatBytes s).take 4)).toNat ∧
       flatBytes s = (flatBytes s).take 4 ++ msg ++ flatBytes s1) ∧
    (0 ≤ len → decI32 ((flatBytes s).take 4) = len →
       (flatBytes s).length < 4 + len.toNat →
       transportRead s = none ∧ serverReads s = []) := by
  constructor
  · exact transportRead_spec s msg s1
  · intro h1 h2 h3
    have hnone := transportRead_truncated s len h1 h2 h3
    refine ⟨hnone, ?_⟩
    simp [serverReads, serverReadsF, hnone]

/-- Witness for C7: a complete frame (length 3, payload "ABC" followed by
more bytes) is delivered exactly; a truncated frame (declared length 5,
one payload byte) reads as closure and the loop reads nothing. -/
theorem binary_framing_complete_or_closed_witness :
    (transportRead [[3, 0, 0, 0, 65, 66, 67], [9]] =
       some ([65, 66, 67], [[9]]) ∧
     ([65, 66, 67] : Chunk).length =
       (decI32 ((flatBytes [[3, 0, 0, 0, 65, 66, 67], [9]]).take 4)).toNat) ∧
    (transportRead [[5, 0, 0, 0, 65]] = none ∧
     serverReads [[5, 0, 0, 0, 65]] = []) := by
  refine ⟨⟨rfl, ?_⟩, ?_⟩
  · exact ((binary_framing_complete_or_closed [[3, 0, 0, 0, 65, 66, 67], [9]]
      [65, 66, 67] [[9]] 0).1 rfl).2.1
  · exact (binary_framing_complete_or_closed [[5, 0, 0, 0, 65]] [] [] 5).2
      (by decide) (by decide) (by decide)

/-- Appending one complete frame of a submitted payload keeps the output
fully framed. -/
theorem framedOut_append (M : List (List Nat)) (base : List Nat)
    (p : List Nat) (hb : FramedOut M base) (hp : p ∈ M) :
    FramedOut M (base ++ frameBytes p) := by
  obtain ⟨ps, hmem, rfl⟩ := hb
  refine ⟨ps ++ [p], ?_, ?_⟩
  · intro q hq
    rcases List.mem_append.mp hq with h1 | h2
    · exact hmem q h1
    · rw [List.mem_singleton.mp h2]
      exact hp
  · simp

/-- The empty program is a boundary. -/
theorem boundary_nil (M : List (List Nat)) : Boundary M [] :=
  ⟨[], by simp, rfl⟩

/-- A boundary program is empty or starts with a whole
`transportWrite` instruction sequence. -/
theorem boundary_head (M : List (List Nat)) (prog : List WInstr)
    (hb : Boundary M prog) :
    prog = [] ∨ ∃ p tail, p ∈ M ∧ Boundary M tail ∧
      prog = WInstr.lock :: WInstr.write (encU32 p.length) ::
        WInstr.write p :: WInstr.unlock :: tail := by
  obtain ⟨ps, hmem, rfl⟩ := hb
  cases ps with
  | nil => exact Or.inl rfl
  | cons p ps2 =>
    refine Or.inr ⟨p, (ps2.map msgProg).flatten, hmem p (by simp), ?_, ?_⟩
    · exact ⟨ps2, fun q hq => hmem q (by simp [hq]), rfl⟩
    · simp [msgProg]

/-- A boundary program never starts with a `write`. -/
theorem boundary_not_write (M : List (List Nat)) (bs : List Nat)
    (rest : List WInstr) (hb : Boundary M (WInstr.write bs :: rest)) :
    False := by
  rcases boundary_head M _ hb with hnil | ⟨p, tail, _, _, heq⟩
  · cases hnil
  · cases heq

/-- A boundary program never starts with an `unlock`. -/
theorem boundary_not_unlock (M : List (List Nat)) (rest : List WInstr)
    (hb : Boundary M (WInstr.unlock :: rest)) : False := by
  rcases boundary_head M _ hb with hnil | ⟨p, tail, _, _, heq⟩
  · cases hnil
  · cases heq

/-- The initial writer state satisfies the invariant. -/
theorem winv_init (threadMsgs : List (List (List Nat))) :
    WInv threadMsgs.flatten (wInit threadMsgs) := by
  refine ⟨⟨[], by simp, rfl⟩, ?_⟩
  intro j pr hj
  simp only [wInit] at hj
  rw [List.getElem?_map] at hj
  rcases hms : threadMsgs[j]? with _ | ms
  · rw [hms] at hj
    cases hj
  · rw [hms] at hj
    injection hj with hj2
    subst hj2
    exact ⟨ms, fun q hq => List.mem_flatten.mpr
      ⟨ms, List.getElem?_mem hms, hq⟩, rfl⟩

/-- One step of any writer thread preserves the invariant. -/
theorem winv_step (M : List (List Nat)) (s s2 : WState)
    (hinv : WInv M s) (hstep : WStep s s2) : WInv M s2 := by
  cases hstep with
  | lock i rest hholder hget =>
    unfold WInv at hinv ⊢
    rw [hholder] at hinv
    obtain ⟨hout, hbd⟩ := hinv
    have hi : i < s.progs.length := by
      by_contra hcon
      rw [List.getElem?_eq_none (by omega)] at hget
      cases hget
    refine ⟨?_, ?_⟩
    · intro j pr hne hj
      rw [List.getElem?_set_ne (Ne.symm hne)] at hj
      exact hbd j pr hj
    · rcases boundary_head M _ (hbd i _ hget) with hnil | ⟨p, tail, hpM, htail, heq⟩
      · cases hnil
      · injection heq with _ hrest
        refine ⟨rest, by simp [List.getElem?_set, hi], p, tail, hpM, htail, ?_⟩
        exact Or.inl ⟨hrest, hout⟩
  | write i bs rest hget =>
    have hi : i < s.progs.length := by
      by_contra hcon
      rw [List.getElem?_eq_none (by omega)] at hget
      cases hget
    unfold WInv at hinv ⊢
    rcases hh : s.holder with _ | k
    · rw [hh] at hinv
      exact absurd (hinv.2 i _ hget) (boundary_not_write M bs rest)
    · rw [hh] at hinv
      obtain ⟨hothers, pr, hprget, hmid⟩ := hinv
      by_cases hik : i = k
      · subst hik
        rw [hget] at hprget
        injection hprget with hpr
        subst hpr
        obtain ⟨p, tail, hpM, htail, hcase⟩ := hmid
        rcases hcase with ⟨hprog, hfr⟩ | ⟨hprog, base, hbase, houtbase⟩ |
            ⟨hprog, hfr⟩
        · injection hprog with hbsI hrest
          injection hbsI with hbs
          refine ⟨?_, rest, by simp [List.getElem?_set, hi], p, tail, hpM,
            htail, ?_⟩
          · intro j pr2 hne hj
            rw [List.getElem?_set_ne (Ne.symm hne)] at hj
            exact hothers j pr2 hne hj
          · exact Or.inr (Or.inl ⟨hrest, s.out, hfr, by rw [hbs]⟩)
        · injection hprog with hbsI hrest
          injection hbsI with hbs
          refine ⟨?_, rest, by simp [List.getElem?_set, hi], p, tail, hpM,
            htail, ?_⟩
          · intro j pr2 hne hj
            rw [List.getElem?_set_ne (Ne.symm hne)] at hj
            exact hothers j pr2 hne hj
          · refine Or.inr (Or.inr ⟨hrest, ?_⟩)
            rw [houtbase, hbs, List.append_assoc]
            exact framedOut_append M base p hbase hpM
        · cases hprog
      · exact absurd (hothers i _ hik hget) (boundary_not_write M bs rest)
  | unlock i rest hget =>
    have hi : i < s.progs.length := by
      by_contra hcon
      rw [List.getElem?_eq_none (by omega)] at hget
      cases hget
    unfold WInv at hinv ⊢
    rcases hh : s.holder with _ | k
    · rw [hh] at hinv
      exact absurd (hinv.2 i _ hget) (boundary_not_unlock M rest)
    · rw [hh] at hinv
      obtain ⟨hothers, pr, hprget, hmid⟩ := hinv
      by_cases hik : i = k
      · subst hik
        rw [hget] at hprget
        injection hprget with hpr
        subst hpr
        obtain ⟨p, tail, hpM, htail, hcase⟩ := hmid
        rcases hcase with ⟨hprog, hfr⟩ | ⟨hprog, hex⟩ | ⟨hprog, hfr⟩
        · cases hprog
        · cases hprog
        · injection hprog with hhead hrest
          refine ⟨hfr, ?_⟩
          intro j pr2 hj
          by_cases hji : j = i
          · subst hji
            rw [List.getElem?_set, if_pos rfl, if_pos hi] at hj
            injection hj with hj2
            rw [← hj2, hrest]
            exact htail
          · rw [List.getElem?_set_ne (Ne.symm hji)] at hj
            exact hothers j pr2 hji hj
      · exact absurd (hothers i _ hik hget) (boundary_not_unlock M rest)

/-- The invariant holds in every reachable writer state. -/
theorem winv_reachable (M : List (List Nat)) (s0 s1 : WState)
    (hrtg : Relation.ReflTransGen WStep s0 s1) (h0 : WInv M s0) :
    WInv M s1 := by
  induction hrtg with
  | refl => exact h0
  | tail _ hstep ih => exact winv_step M _ _ ih hstep

/-- The length prefix round-trips for any frameable payload length. -/
theorem decU32_encU32 (n : Nat) (hn : n < 4294967296) :
    decU32 (encU32 n) = n := by
  simp only [encU32, decU32]
  omega

/-- The length prefix is always 4 bytes. -/
theorem encU32_length (n : Nat) : (encU32 n).length = 4 := rfl

/-- Reduction of one frame-decoding step on a nonempty stream. -/
theorem decodeFramesF_succ_ne (f : Nat) (l : List Nat) (hne : l ≠ []) :
    decodeFramesF (f + 1) l =
      if l.length < 4 then none
      else if 2147483648 ≤ decU32 (l.take 4) then none
      else if l.length < 4 + decU32 (l.take 4) then none
      else match decodeFramesF f (l.drop (4 + decU32 (l.take 4))) with
        | some ps => some ((l.drop 4).take (decU32 (l.take 4)) :: ps)
        | none => none := by
  cases l with
  | nil => cases hne rfl
  | cons b bs => rfl

/-- Decoding a concatenation of frames of bounded payloads recovers
exactly the payload list, for any sufficient fuel. -/
theorem decodeFramesF_frames (ps : List (List Nat))
    (hb : ∀ p ∈ ps, p.length < 2147483648) :
    ∀ fuel, (ps.map frameBytes).flatten.length ≤ fuel →
      decodeFramesF fuel ((ps.map frameBytes).flatten) = some ps := by
  induction ps with
  | nil =>
    intro fuel _
    cases fuel <;> rfl
  | cons p rest ih =>
    intro fuel hfuel
    have hp : p.length < 2147483648 := hb p (by simp)
    have hrest : ∀ q ∈ rest, q.length < 2147483648 :=
      fun q hq => hb q (by simp [hq])
    have ihr := ih hrest
    have hsplit : ((p :: rest).map frameBytes).flatten =
        (encU32 p.length ++ p) ++ (rest.map frameBytes).flatten := by
      simp [frameBytes]
    have hLen : ((encU32 p.length ++ p) ++
        (rest.map frameBytes).flatten).length =
        4 + p.length + (rest.map frameBytes).flatten.length := by
      simp [List.length_append, encU32_length]
      omega
    rw [hsplit] at hfuel ⊢
    cases fuel with
    | zero =>
      exfalso
      rw [hLen] at hfuel
      omega
    | succ f =>
      rw [decodeFramesF_succ_ne f _ (by simp [encU32])]
      have hassoc : (encU32 p.length ++ p) ++ (rest.map frameBytes).flatten =
          encU32 p.length ++ (p ++ (rest.map frameBytes).flatten) :=
        List.append_assoc _ _ _
      have htake4 : ((encU32 p.length ++ p) ++
          (rest.map frameBytes).flatten).take 4 = encU32 p.length := by
        rw [hassoc, ← encU32_length p.length, List.take_left]
      have hu : decU32 (((encU32 p.length ++ p) ++
          (rest.map frameBytes).flatten).take 4) = p.length := by
        rw [htake4]
        exact decU32_encU32 p.length (by omega)
      have hdrop4 : ((encU32 p.length ++ p) ++
          (rest.map frameBytes).flatten).drop 4 =
          p ++ (rest.map frameBytes).flatten := by
        rw [hassoc, ← encU32_length p.length, List.drop_left]
      have hdropAll : ((encU32 p.length ++ p) ++
          (rest.map frameBytes).flatten).drop (4 + p.length) =
          (rest.map frameBytes).flatten := by
        have hl2 : (encU32 p.length ++ p).length = 4 + p.length := by
          simp [List.length_append, encU32_length]
        rw [← hl2, List.drop_left]
      have hf2 : (rest.map frameBytes).flatten.length ≤ f := by
        rw [hLen] at hfuel
        omega
      rw [hu, hdrop4, hdropAll, ihr f hf2, hLen, List.take_left,
        if_neg (by omega), if_neg (by omega), if_neg (by omega)]

/-- Decoding the full output stream of framed payloads. -/
theorem decodeFrames_frames (ps : List (List Nat))
    (hb : ∀ p ∈ ps, p.length < 2147483648) :
    decodeFrames ((ps.map frameBytes).flatten) = some ps :=
  decodeFramesF_frames ps hb _ (by omega)

/-- Claim C9: for any number of writer threads each performing any
sequence of `transportWrite` calls, and any interleaved execution under
the transport lock, a terminal state's output stream is a concatenation
of complete frames: every 4-byte-length-prefixed chunk decodes to a
complete document, and each decoded payload is one of the submitted
messages.  (Payloads fit in a signed 32-bit length, as `struct.pack('i')`
raises before writing anything for larger ones.) -/
theorem writer_lock_framing (threadMsgs : List (List (List Nat)))
    (s1 : WState)
    (hlen : ∀ ms ∈ threadMsgs, ∀ p ∈ ms, p.length < 2147483648)
    (hexec : Relation.ReflTransGen WStep (wInit threadMsgs) s1)
    (hdone : ∀ pr ∈ s1.progs, pr = ([] : List WInstr)) :
    ∃ ps : List (List Nat), (∀ p ∈ ps, p ∈ threadMsgs.flatten) ∧
      s1.out = (ps.map frameBytes).flatten ∧
      decodeFrames s1.out = some ps := by
  have hinv := winv_reachable threadMsgs.flatten _ _ hexec
    (winv_init threadMsgs)
  unfold WInv at hinv
  rcases hh : s1.holder with _ | i
  · rw [hh] at hinv
    obtain ⟨⟨ps, hmem, hout⟩, _⟩ := hinv
    refine ⟨ps, hmem, hout, ?_⟩
    rw [hout]
    apply decodeFrames_frames
    intro p hp
    obtain ⟨ms, hms, hpin⟩ := List.mem_flatten.mp (hmem p hp)
    exact hlen ms hms p hpin
  · exfalso
    rw [hh] at hinv
    obtain ⟨_, pr, hget, p, tail, _, _, hcase⟩ := hinv
    have hpr : pr = [] := hdone pr (List.getElem?_mem hget)
    subst hpr
    rcases hcase with ⟨hprog, _⟩ | ⟨hprog, _⟩ | ⟨hprog, _⟩ <;> cases hprog

/-- Witness for C9: a single thread writing the one-byte message `[65]`;
the complete interleaved execution produces the frame `[1,0,0,0,65]`,
which decodes back to the message. -/
theorem writer_lock_framing_witness :
    ∃ ps : List (List Nat),
      (∀ p ∈ ps, p ∈ ([[[65]]] : List (List (List Nat))).flatten) ∧
      (WState.mk [[]] none [1, 0, 0, 0, 65]).out =
        (ps.map frameBytes).flatten ∧
      decodeFrames (WState.mk [[]] none [1, 0, 0, 0, 65]).out = some ps := by
  have st1 : WStep (wInit [[[65]]])
      ⟨[[WInstr.write (encU32 1), WInstr.write [65], WInstr.unlock]],
        some 0, []⟩ :=
    WStep.lock (wInit [[[65]]]) 0
      [WInstr.write (encU32 1), WInstr.write [65], WInstr.unlock] rfl rfl
  have st2 : WStep
      ⟨[[WInstr.write (encU32 1), WInstr.write [65], WInstr.unlock]],
        some 0, []⟩
      ⟨[[WInstr.write [65], WInstr.unlock]], some 0, [1, 0, 0, 0]⟩ :=
    WStep.write _ 0 (encU32 1) [WInstr.write [65], WInstr.unlock] rfl
  have st3 : WStep
      ⟨[[WInstr.write [65], WInstr.unlock]], some 0, [1, 0, 0, 0]⟩
      ⟨[[WInstr.unlock]], some 0, [1, 0, 0, 0, 65]⟩ :=
    WStep.write _ 0 [65] [WInstr.unlock] rfl
  have st4 : WStep ⟨[[WInstr.unlock]], some 0, [1, 0, 0, 0, 65]⟩
      ⟨[[]], none, [1, 0, 0, 0, 65]⟩ :=
    WStep.unlock _ 0 [] rfl
  refine writer_lock_framing [[[65]]] ⟨[[]], none, [1, 0, 0, 0, 65]⟩
    ?_ ?_ ?_
  · intro ms hms p hp
    simp only [List.mem_singleton] at hms
    subst hms
    simp only [List.mem_singleton] at hp
    subst hp
    decide
  · exact Relation.ReflTransGen.head st1 (Relation.ReflTransGen.head st2
      (Relation.ReflTransGen.head st3 (Relation.ReflTransGen.head st4
        Relation.ReflTransGen.refl)))
  · intro pr hpr
    simp only [List.mem_singleton] at hpr
    exact hpr

end MacDBG
